import Mathlib

/-! Verification development for `src/sound.c`.

A shallow embedding of the sound module: the map-music state machine, the
fanfare sequencer, the cry parameter selection, the BGM ducking task and the
regional song remapper.  Global variables of the module form the record
`State`; every C function becomes a function on `State`.  Calls into the m4a
sound engine are recorded, in order, in `State.calls`.  Values that the module
only reads and that change outside of it (save-block option, quest-log state,
music-player status words) form the record `Env`.  Constants that come from
headers other than `sound.c` are fields of `Consts`.
-/

namespace Sound

/-! ## Constants from other headers -/

/-- Names of the `MUS_*` constants of `constants/songs.h` that `sound.c` mentions. -/
inductive SongName
  | MUS_LEVEL_UP | MUS_OBTAIN_ITEM | MUS_EVOLVED | MUS_OBTAIN_TMHM | MUS_HEAL | MUS_OBTAIN_BADGE
  | MUS_MOVE_DELETED | MUS_OBTAIN_BERRY | MUS_SLOTS_JACKPOT | MUS_SLOTS_WIN | MUS_TOO_BAD
  | MUS_POKE_FLUTE | MUS_OBTAIN_KEY_ITEM | MUS_DEX_RATING | MUS_HG_OBTAIN_KEY_ITEM
  | MUS_HG_LEVEL_UP | MUS_HG_HEAL | MUS_HG_DEX_RATING_1 | MUS_HG_DEX_RATING_2
  | MUS_HG_DEX_RATING_3 | MUS_HG_DEX_RATING_4 | MUS_HG_DEX_RATING_5 | MUS_HG_DEX_RATING_6
  | MUS_HG_OBTAIN_EGG | MUS_HG_OBTAIN_ITEM | MUS_HG_EVOLVED | MUS_HG_OBTAIN_BADGE
  | MUS_HG_OBTAIN_TMHM | MUS_HG_CARD_FLIP | MUS_HG_CARD_FLIP_GAME_OVER | MUS_HG_OBTAIN_ACCESSORY
  | MUS_HG_POKEGEAR_REGISTERED | MUS_HG_OBTAIN_BERRY | MUS_HG_RECEIVE_POKEMON
  | MUS_HG_MOVE_DELETED | MUS_HG_BUG_CONTEST_3RD_PLACE | MUS_HG_BUG_CONTEST_2ND_PLACE
  | MUS_HG_BUG_CONTEST_1ST_PLACE | MUS_HG_POKEATHLON_READY | MUS_HG_POKEATHLON_1ST_PLACE
  | MUS_HG_OBTAIN_B_POINTS | MUS_HG_OBTAIN_ARCADE_POINTS | MUS_HG_OBTAIN_CASTLE_POINTS
  | MUS_HG_WIN_MINIGAME | MUS_HG_LETS_GO_TOGETHER | MUS_EVOLUTION_INTRO
  | MUS_HG_EVOLUTION_NO_INTRO | MUS_EVOLUTION | MUS_HG_EVOLUTION | MUS_RS_VS_GYM_LEADER
  | MUS_HG_VS_GYM_LEADER | MUS_RS_VS_TRAINER | MUS_HG_VS_TRAINER | MUS_SCHOOL | MUS_HG_LYRA
  | MUS_HG_GAME_CORNER_WIN | MUS_HG_RADIO_UNOWN | MUS_FOLLOW_ME | MUS_HG_FOLLOW_ME_1
  | MUS_GAME_CORNER | MUS_HG_GAME_CORNER | MUS_ROCKET_HIDEOUT | MUS_HG_TEAM_ROCKET_HQ | MUS_GYM
  | MUS_HG_GYM | MUS_JIGGLYPUFF | MUS_HG_RADIO_LULLABY | MUS_INTRO_FIGHT | MUS_HG_INTRO
  | MUS_TITLE | MUS_HG_TITLE | MUS_CINNABAR | MUS_HG_CINNABAR | MUS_LAVENDER | MUS_HG_LAVENDER
  | MUS_HEAL_UNUSED | MUS_CYCLING | MUS_HG_CYCLING | MUS_ENCOUNTER_ROCKET
  | MUS_HG_ENCOUNTER_ROCKET | MUS_ENCOUNTER_GIRL | MUS_HG_ENCOUNTER_GIRL_1 | MUS_ENCOUNTER_BOY
  | MUS_HG_ENCOUNTER_BOY_1 | MUS_HALL_OF_FAME | MUS_HG_E_DENDOURIRI | MUS_VIRIDIAN_FOREST
  | MUS_HG_VIRIDIAN_FOREST | MUS_MT_MOON | MUS_HG_ROCK_TUNNEL | MUS_POKE_MANSION
  | MUS_HG_RUINS_OF_ALPH | MUS_CREDITS | MUS_HG_CREDITS | MUS_ROUTE1 | MUS_HG_ROUTE1
  | MUS_ROUTE24 | MUS_HG_ROUTE24 | MUS_ROUTE3 | MUS_HG_ROUTE3 | MUS_ROUTE11 | MUS_HG_ROUTE11
  | MUS_VICTORY_ROAD | MUS_HG_VICTORY_ROAD | MUS_VS_GYM_LEADER | MUS_HG_VS_GYM_LEADER_KANTO
  | MUS_VS_TRAINER | MUS_HG_VS_TRAINER_KANTO | MUS_VS_WILD | MUS_HG_VS_WILD_KANTO
  | MUS_VS_CHAMPION | MUS_HG_VS_CHAMPION | MUS_PALLET | MUS_HG_PALLET | MUS_OAK_LAB
  | MUS_HG_ELM_LAB | MUS_OAK | MUS_HG_OAK | MUS_POKE_CENTER | MUS_HG_POKE_CENTER | MUS_SS_ANNE
  | MUS_HG_SS_AQUA | MUS_SURF | MUS_HG_SURF | MUS_POKE_TOWER | MUS_HG_BELL_TOWER | MUS_SILPH
  | MUS_HG_ROCKET_TAKEOVER | MUS_FUCHSIA | MUS_HG_CERULEAN | MUS_CELADON | MUS_HG_CELADON
  | MUS_VICTORY_TRAINER | MUS_HG_VICTORY_TRAINER | MUS_VICTORY_WILD | MUS_VICTORY_GYM_LEADER
  | MUS_VERMILLION | MUS_HG_VERMILION | MUS_PEWTER | MUS_HG_PEWTER | MUS_ENCOUNTER_RIVAL
  | MUS_HG_ENCOUNTER_RIVAL | MUS_RIVAL_EXIT | MUS_HG_RIVAL_EXIT | MUS_CAUGHT_INTRO
  | MUS_HG_CAUGHT | MUS_PHOTO | MUS_GAME_FREAK | MUS_CAUGHT | MUS_NEW_GAME_INSTRUCT
  | MUS_HG_NEW_GAME | MUS_NEW_GAME_INTRO | MUS_NEW_GAME_EXIT | MUS_POKE_JUMP
  | MUS_HG_BUG_CATCHING_CONTEST | MUS_UNION_ROOM | MUS_HG_UNION_CAVE | MUS_NET_CENTER
  | MUS_MYSTERY_GIFT | MUS_HG_MYSTERY_GIFT | MUS_BERRY_PICK | MUS_SEVII_CAVE
  | MUS_TEACHY_TV_SHOW | MUS_HG_RADIO_OAK | MUS_SEVII_ROUTE | MUS_HG_ROUTE26 | MUS_SEVII_DUNGEON
  | MUS_SEVII_123 | MUS_HG_CHERRYGROVE | MUS_SEVII_45 | MUS_HG_VIOLET | MUS_SEVII_67
  | MUS_HG_AZALEA | MUS_HG_RADIO_POKE_FLUTE | MUS_VS_DEOXYS | MUS_HG_VS_SUICUNE | MUS_VS_MEWTWO
  | MUS_VS_LEGEND | MUS_ENCOUNTER_GYM_LEADER | MUS_HG_ENCOUNTER_KIMONO_GIRL
  | MUS_ENCOUNTER_DEOXYS | MUS_TRAINER_TOWER | MUS_HG_B_TOWER | MUS_SLOW_PALLET
  | MUS_TEACHY_TV_MENU | MUS_DUMMY | MUS_NONE
  deriving DecidableEq, Repr

/-- The constants and lookup functions that `sound.c` takes from other files.
Their values are not fixed here; the module is verified for every choice. -/
structure Consts where
  /-- Value of a `MUS_*` constant (`constants/songs.h`), a `u16`. -/
  song : SongName → Nat
  /-- `OPTIONS_MUSIC_FIRERED` (`constants/global.h`). -/
  OPTIONS_MUSIC_FIRERED : Nat
  /-- `OPTIONS_MUSIC_HGSS` (`constants/global.h`). -/
  OPTIONS_MUSIC_HGSS : Nat
  /-- `QL_STATE_PLAYBACK` (`quest_log.h`). -/
  QL_STATE_PLAYBACK : Nat
  /-- `TRACKS_ALL` (`m4a_internal.h`). -/
  TRACKS_ALL : Nat
  /-- `MUSICPLAYER_STATUS_TRACK` (`m4a_internal.h`). -/
  MUSICPLAYER_STATUS_TRACK : Nat
  /-- `MUSICPLAYER_STATUS_PAUSE` (`m4a_internal.h`). -/
  MUSICPLAYER_STATUS_PAUSE : Nat
  /-- `CRY_VOLUME` (`sound.h`). -/
  CRY_VOLUME : Int
  /-- `CRY_PRIORITY_NORMAL` (`sound.h`). -/
  CRY_PRIORITY_NORMAL : Nat
  /-- `BATTLE_TYPE_MULTI` (`battle.h`). -/
  BATTLE_TYPE_MULTI : Nat
  /-- `GetCryIdBySpecies` (`pokemon.c`): the cry id of a species. -/
  GetCryIdBySpecies : Nat → Nat

/-- Modelled from the spec: the "no cry" sentinel of `enum PokemonCry`
(`constants/cries.h` is not part of the sources).  It is the first enumerator,
so that after the `cryId--` of `PlayCryInternal` the cry ids `1, 2, ...` index
the tone tables from `0`. -/
def CRY_NONE : Nat := 0

/-! Modelled from the spec: the cry modes (`constants/sound.h` is not part of
the sources), numbered in the order in which the spec enumerates them:
Normal, Doubles, Encounter, HighPitch, EchoStart, Faint, EchoEnd, Roar1,
Roar2, Growl1, Growl2, Weak, WeakDoubles. -/

/-- Modelled from the spec: cry mode Normal. -/
def CRY_MODE_NORMAL : Nat := 0
/-- Modelled from the spec: cry mode Doubles. -/
def CRY_MODE_DOUBLES : Nat := 1
/-- Modelled from the spec: cry mode Encounter. -/
def CRY_MODE_ENCOUNTER : Nat := 2
/-- Modelled from the spec: cry mode HighPitch. -/
def CRY_MODE_HIGH_PITCH : Nat := 3
/-- Modelled from the spec: cry mode EchoStart. -/
def CRY_MODE_ECHO_START : Nat := 4
/-- Modelled from the spec: cry mode Faint. -/
def CRY_MODE_FAINT : Nat := 5
/-- Modelled from the spec: cry mode EchoEnd. -/
def CRY_MODE_ECHO_END : Nat := 6
/-- Modelled from the spec: cry mode Roar1. -/
def CRY_MODE_ROAR_1 : Nat := 7
/-- Modelled from the spec: cry mode Roar2. -/
def CRY_MODE_ROAR_2 : Nat := 8
/-- Modelled from the spec: cry mode Growl1. -/
def CRY_MODE_GROWL_1 : Nat := 9
/-- Modelled from the spec: cry mode Growl2. -/
def CRY_MODE_GROWL_2 : Nat := 10
/-- Modelled from the spec: cry mode Weak. -/
def CRY_MODE_WEAK : Nat := 11
/-- Modelled from the spec: cry mode WeakDoubles. -/
def CRY_MODE_WEAK_DOUBLES : Nat := 12

/-! ## The sound engine and the task runner, as seen from `sound.c` -/

/-- The music players that `sound.c` addresses: the four fixed
`gMPlayInfo_*` players and the player a pointer such as `gMPlay_PokemonCry`
refers to (the pointer value as a number, `0` for `NULL`). -/
inductive Player
  | gMPlayInfo_BGM
  | gMPlayInfo_SE1
  | gMPlayInfo_SE2
  | gMPlayInfo_SE3
  | ptr (p : Nat)
  deriving DecidableEq, Repr

/-- The address handed to `SetPokemonCryTone`: `&gCryTable[i]` or
`&gCryTable_Reverse[i]`. -/
inductive ToneRef
  | gCryTable (i : Nat)
  | gCryTable_Reverse (i : Nat)
  deriving DecidableEq, Repr

/-- One call into the m4a sound engine, with the arguments as written in
`sound.c`. -/
inductive Call
  | m4aMPlayStop (p : Player)
  | m4aMPlayContinue (p : Player)
  | m4aSongNumStart (songNum : Nat)
  | m4aSongNumStop (songNum : Nat)
  | m4aMPlayImmInit (p : Player)
  | m4aMPlayVolumeControl (p : Player) (trackBits : Nat) (volume : Nat)
  | m4aMPlayPanpotControl (p : Player) (trackBits : Nat) (pan : Int)
  | m4aMPlayFadeIn (p : Player) (speed : Nat)
  | m4aMPlayFadeOut (p : Player) (speed : Nat)
  | m4aMPlayFadeOutTemporarily (p : Player) (speed : Nat)
  | SetPokemonCryVolume (val : Int)
  | SetPokemonCryPanpot (val : Int)
  | SetPokemonCryPitch (val : Nat)
  | SetPokemonCryLength (val : Nat)
  | SetPokemonCryProgress (val : Nat)
  | SetPokemonCryRelease (val : Nat)
  | SetPokemonCryChorus (val : Nat)
  | SetPokemonCryPriority (val : Nat)
  | SetPokemonCryTone (tone : ToneRef)
  | ClearPokemonCrySongs
  deriving DecidableEq, Repr

/-- The task functions that can be registered with the task runner: the two
of `sound.c` and any other function of the game. -/
inductive TaskFunc
  | Task_Fanfare
  | Task_DuckBGMForPokemonCry
  | other (id : Nat)
  deriving DecidableEq, Repr

/-- A registered task: its function and the priority it was created with. -/
structure Task where
  func : TaskFunc
  priority : Nat
  deriving DecidableEq, Repr

/-- What `sound.c` reads but does not own. -/
structure Env where
  /-- Field `gSaveBlock1Ptr->optionsMusicSet`. -/
  optionsMusicSet : Nat
  /-- Global `gQuestLogState`. -/
  gQuestLogState : Nat
  /-- Value of the macro `QL_IS_PLAYBACK_STATE` (`quest_log.h`). -/
  QL_IS_PLAYBACK_STATE : Bool
  /-- Global `gTestRunnerHeadless`. -/
  gTestRunnerHeadless : Bool
  /-- Global `gDisableMapMusicChangeOnMapLoad`. -/
  gDisableMapMusicChangeOnMapLoad : Nat
  /-- Global `gBattleTypeFlags`. -/
  gBattleTypeFlags : Nat
  /-- Field `gMPlayInfo_BGM.status`. -/
  bgmStatus : Nat
  /-- Field `gMPlayInfo_SE1.status`. -/
  se1Status : Nat
  /-- Field `gMPlayInfo_SE2.status`. -/
  se2Status : Nat
  /-- Field `gMPlayInfo_SE3.status`. -/
  se3Status : Nat
  /-- Result of `IsPokemonCryPlaying` for a player pointer. -/
  IsPokemonCryPlaying : Nat → Bool
  /-- The player pointer that `SetPokemonCryTone` returns for a tone. -/
  SetPokemonCryTone : ToneRef → Nat

/-- The variables of `sound.c`, the registered tasks and the engine calls made
so far. -/
structure State where
  gMPlay_PokemonCry : Nat
  gPokemonCryBGMDuckingCounter : Nat
  sCurrentMapMusic : Nat
  sNextMapMusic : Nat
  sMapMusicState : Nat
  sMapMusicFadeInSpeed : Nat
  sFanfareCounter : Nat
  gDisableMusic : Bool
  gDisableHelpSystemVolumeReduce : Bool
  /-- The tasks registered with the task runner; a task id is a position in
  this list. -/
  tasks : List Task
  /-- The engine calls issued so far, oldest first. -/
  calls : List Call
  deriving DecidableEq, Repr

/-- Records one engine call. -/
def emit (call : Call) (s : State) : State :=
  { s with calls := s.calls ++ [call] }

/-- Modelled from the spec: `FuncIsActiveTask` of the task runner (`task.c` is
not part of the sources): "query whether a callback is currently registered". -/
def FuncIsActiveTask (func : TaskFunc) (s : State) : Bool :=
  s.tasks.any (fun t => t.func == func)

/-- Modelled from the spec: `CreateTask` of the task runner (`task.c` is not
part of the sources): "register a periodic callback identified by function
identity". -/
def CreateTask (func : TaskFunc) (priority : Nat) (s : State) : State :=
  { s with tasks := s.tasks ++ [⟨func, priority⟩] }

/-- Modelled from the spec: `DestroyTask` of the task runner (`task.c` is not
part of the sources): "unregister it"; the task with the given id goes. -/
def DestroyTask (taskId : Nat) (s : State) : State :=
  { s with tasks := s.tasks.eraseIdx taskId }

/-! ## Machine integers -/

/-- The `--` of a `u16` variable: one less, and `0xFFFF` when the value is `0`
(the decrement wraps around). -/
def decU16 (n : Nat) : Nat :=
  if n = 0 then 0xFFFF else n - 1

/-- The `--` of a `u8` variable: one less, and `0xFF` when the value is `0`
(the decrement wraps around). -/
def decU8 (n : Nat) : Nat :=
  if n = 0 then 0xFF else n - 1

/-! ## `sound.c` -/

/-- The element type of `sFanfares`. -/
structure Fanfare where
  songNum : Nat
  duration : Nat
  deriving DecidableEq, Repr

/-- The table `sFanfares`.  Its designated indices `FANFARE_*` (`sound.h`, not
part of the sources) are taken to number the entries in the order written,
`FANFARE_LEVEL_UP = 0`: the source calls entry `0` the "first fanfare in
table". -/
def sFanfares (c : Consts) : List Fanfare :=
  [
    ⟨c.song .MUS_LEVEL_UP, 80⟩, -- [0] FANFARE_LEVEL_UP
    ⟨c.song .MUS_OBTAIN_ITEM, 160⟩, -- [1] FANFARE_OBTAIN_ITEM
    ⟨c.song .MUS_EVOLVED, 220⟩, -- [2] FANFARE_EVOLVED
    ⟨c.song .MUS_OBTAIN_TMHM, 220⟩, -- [3] FANFARE_OBTAIN_TMHM
    ⟨c.song .MUS_HEAL, 160⟩, -- [4] FANFARE_HEAL
    ⟨c.song .MUS_OBTAIN_BADGE, 340⟩, -- [5] FANFARE_OBTAIN_BADGE
    ⟨c.song .MUS_MOVE_DELETED, 180⟩, -- [6] FANFARE_MOVE_DELETED
    ⟨c.song .MUS_OBTAIN_BERRY, 120⟩, -- [7] FANFARE_OBTAIN_BERRY
    ⟨c.song .MUS_SLOTS_JACKPOT, 250⟩, -- [8] FANFARE_SLOTS_JACKPOT
    ⟨c.song .MUS_SLOTS_WIN, 150⟩, -- [9] FANFARE_SLOTS_WIN
    ⟨c.song .MUS_TOO_BAD, 160⟩, -- [10] FANFARE_TOO_BAD
    ⟨c.song .MUS_POKE_FLUTE, 450⟩, -- [11] FANFARE_POKE_FLUTE
    ⟨c.song .MUS_OBTAIN_KEY_ITEM, 170⟩, -- [12] FANFARE_KEY_ITEM
    ⟨c.song .MUS_DEX_RATING, 196⟩, -- [13] FANFARE_DEX_EVAL
    ⟨c.song .MUS_HG_OBTAIN_KEY_ITEM, 170⟩, -- [14] FANFARE_HG_OBTAIN_KEY_ITEM
    ⟨c.song .MUS_HG_LEVEL_UP, 80⟩, -- [15] FANFARE_HG_LEVEL_UP
    ⟨c.song .MUS_HG_HEAL, 160⟩, -- [16] FANFARE_HG_HEAL
    ⟨c.song .MUS_HG_DEX_RATING_1, 200⟩, -- [17] FANFARE_HG_DEX_RATING_1
    ⟨c.song .MUS_HG_DEX_RATING_2, 180⟩, -- [18] FANFARE_HG_DEX_RATING_2
    ⟨c.song .MUS_HG_DEX_RATING_3, 220⟩, -- [19] FANFARE_HG_DEX_RATING_3
    ⟨c.song .MUS_HG_DEX_RATING_4, 210⟩, -- [20] FANFARE_HG_DEX_RATING_4
    ⟨c.song .MUS_HG_DEX_RATING_5, 210⟩, -- [21] FANFARE_HG_DEX_RATING_5
    ⟨c.song .MUS_HG_DEX_RATING_6, 370⟩, -- [22] FANFARE_HG_DEX_RATING_6
    ⟨c.song .MUS_HG_OBTAIN_EGG, 155⟩, -- [23] FANFARE_HG_RECEIVE_EGG
    ⟨c.song .MUS_HG_OBTAIN_ITEM, 160⟩, -- [24] FANFARE_HG_OBTAIN_ITEM
    ⟨c.song .MUS_HG_EVOLVED, 240⟩, -- [25] FANFARE_HG_EVOLVED
    ⟨c.song .MUS_HG_OBTAIN_BADGE, 340⟩, -- [26] FANFARE_HG_OBTAIN_BADGE
    ⟨c.song .MUS_HG_OBTAIN_TMHM, 220⟩, -- [27] FANFARE_HG_OBTAIN_TMHM
    ⟨c.song .MUS_HG_CARD_FLIP, 195⟩, -- [28] FANFARE_HG_VOLTORB_FLIP_1
    ⟨c.song .MUS_HG_CARD_FLIP_GAME_OVER, 240⟩, -- [29] FANFARE_HG_VOLTORB_FLIP_2
    ⟨c.song .MUS_HG_OBTAIN_ACCESSORY, 160⟩, -- [30] FANFARE_HG_ACCESSORY
    ⟨c.song .MUS_HG_POKEGEAR_REGISTERED, 185⟩, -- [31] FANFARE_HG_REGISTER_POKEGEAR
    ⟨c.song .MUS_HG_OBTAIN_BERRY, 120⟩, -- [32] FANFARE_HG_OBTAIN_BERRY
    ⟨c.song .MUS_HG_RECEIVE_POKEMON, 150⟩, -- [33] FANFARE_HG_RECEIVE_POKEMON
    ⟨c.song .MUS_HG_MOVE_DELETED, 180⟩, -- [34] FANFARE_HG_MOVE_DELETED
    ⟨c.song .MUS_HG_BUG_CONTEST_3RD_PLACE, 130⟩, -- [35] FANFARE_HG_THIRD_PLACE
    ⟨c.song .MUS_HG_BUG_CONTEST_2ND_PLACE, 225⟩, -- [36] FANFARE_HG_SECOND_PLACE
    ⟨c.song .MUS_HG_BUG_CONTEST_1ST_PLACE, 250⟩, -- [37] FANFARE_HG_FIRST_PLACE
    ⟨c.song .MUS_HG_POKEATHLON_READY, 110⟩, -- [38] FANFARE_HG_POKEATHLON_NEW
    ⟨c.song .MUS_HG_POKEATHLON_1ST_PLACE, 144⟩, -- [39] FANFARE_HG_WINNING_POKEATHLON
    ⟨c.song .MUS_HG_OBTAIN_B_POINTS, 264⟩, -- [40] FANFARE_HG_OBTAIN_B_POINTS
    ⟨c.song .MUS_HG_OBTAIN_ARCADE_POINTS, 175⟩, -- [41] FANFARE_HG_OBTAIN_ARCADE_POINTS
    ⟨c.song .MUS_HG_OBTAIN_CASTLE_POINTS, 200⟩, -- [42] FANFARE_HG_OBTAIN_CASTLE_POINTS
    ⟨c.song .MUS_HG_WIN_MINIGAME, 230⟩, -- [43] FANFARE_HG_CLEAR_MINIGAME
    ⟨c.song .MUS_HG_LETS_GO_TOGETHER, 180⟩ -- [44] FANFARE_HG_PARTNER
  ]

/-- The function `FireRedMusicHandler`. -/
def FireRedMusicHandler (songNum : Nat) : Nat :=
  songNum

/-- The `case` labels of the `switch` in `HGSSMusicHandler`, each with the
value its branch returns, in source order. -/
def hgssCases (c : Consts) : List (Nat × Nat) :=
  [
    (c.song .MUS_HEAL, c.song .MUS_HG_HEAL),
    (c.song .MUS_LEVEL_UP, c.song .MUS_HG_LEVEL_UP),
    (c.song .MUS_OBTAIN_ITEM, c.song .MUS_HG_OBTAIN_ITEM),
    (c.song .MUS_EVOLVED, c.song .MUS_HG_EVOLVED),
    (c.song .MUS_OBTAIN_BADGE, c.song .MUS_HG_OBTAIN_BADGE),
    (c.song .MUS_OBTAIN_TMHM, c.song .MUS_HG_OBTAIN_TMHM),
    (c.song .MUS_OBTAIN_BERRY, c.song .MUS_HG_OBTAIN_BERRY),
    (c.song .MUS_EVOLUTION_INTRO, c.song .MUS_HG_EVOLUTION_NO_INTRO),
    (c.song .MUS_EVOLUTION, c.song .MUS_HG_EVOLUTION),
    (c.song .MUS_RS_VS_GYM_LEADER, c.song .MUS_HG_VS_GYM_LEADER),
    (c.song .MUS_RS_VS_TRAINER, c.song .MUS_HG_VS_TRAINER),
    (c.song .MUS_SCHOOL, c.song .MUS_HG_LYRA),
    (c.song .MUS_SLOTS_JACKPOT, c.song .MUS_HG_GAME_CORNER_WIN),
    (c.song .MUS_SLOTS_WIN, c.song .MUS_HG_GAME_CORNER_WIN),
    (c.song .MUS_MOVE_DELETED, c.song .MUS_HG_MOVE_DELETED),
    (c.song .MUS_TOO_BAD, c.song .MUS_HG_RADIO_UNOWN),
    (c.song .MUS_FOLLOW_ME, c.song .MUS_HG_FOLLOW_ME_1),
    (c.song .MUS_GAME_CORNER, c.song .MUS_HG_GAME_CORNER),
    (c.song .MUS_ROCKET_HIDEOUT, c.song .MUS_HG_TEAM_ROCKET_HQ),
    (c.song .MUS_GYM, c.song .MUS_HG_GYM),
    (c.song .MUS_JIGGLYPUFF, c.song .MUS_HG_RADIO_LULLABY),
    (c.song .MUS_INTRO_FIGHT, c.song .MUS_HG_INTRO),
    (c.song .MUS_TITLE, c.song .MUS_HG_TITLE),
    (c.song .MUS_CINNABAR, c.song .MUS_HG_CINNABAR),
    (c.song .MUS_LAVENDER, c.song .MUS_HG_LAVENDER),
    (c.song .MUS_HEAL_UNUSED, c.song .MUS_HG_HEAL),
    (c.song .MUS_CYCLING, c.song .MUS_HG_CYCLING),
    (c.song .MUS_ENCOUNTER_ROCKET, c.song .MUS_HG_ENCOUNTER_ROCKET),
    (c.song .MUS_ENCOUNTER_GIRL, c.song .MUS_HG_ENCOUNTER_GIRL_1),
    (c.song .MUS_ENCOUNTER_BOY, c.song .MUS_HG_ENCOUNTER_BOY_1),
    (c.song .MUS_HALL_OF_FAME, c.song .MUS_HG_E_DENDOURIRI),
    (c.song .MUS_VIRIDIAN_FOREST, c.song .MUS_HG_VIRIDIAN_FOREST),
    (c.song .MUS_MT_MOON, c.song .MUS_HG_ROCK_TUNNEL),
    (c.song .MUS_POKE_MANSION, c.song .MUS_HG_RUINS_OF_ALPH),
    (c.song .MUS_CREDITS, c.song .MUS_HG_CREDITS),
    (c.song .MUS_ROUTE1, c.song .MUS_HG_ROUTE1),
    (c.song .MUS_ROUTE24, c.song .MUS_HG_ROUTE24),
    (c.song .MUS_ROUTE3, c.song .MUS_HG_ROUTE3),
    (c.song .MUS_ROUTE11, c.song .MUS_HG_ROUTE11),
    (c.song .MUS_VICTORY_ROAD, c.song .MUS_HG_VICTORY_ROAD),
    (c.song .MUS_VS_GYM_LEADER, c.song .MUS_HG_VS_GYM_LEADER_KANTO),
    (c.song .MUS_VS_TRAINER, c.song .MUS_HG_VS_TRAINER_KANTO),
    (c.song .MUS_VS_WILD, c.song .MUS_HG_VS_WILD_KANTO),
    (c.song .MUS_VS_CHAMPION, c.song .MUS_HG_VS_CHAMPION),
    (c.song .MUS_PALLET, c.song .MUS_HG_PALLET),
    (c.song .MUS_OAK_LAB, c.song .MUS_HG_ELM_LAB),
    (c.song .MUS_OAK, c.song .MUS_HG_OAK),
    (c.song .MUS_POKE_CENTER, c.song .MUS_HG_POKE_CENTER),
    (c.song .MUS_SS_ANNE, c.song .MUS_HG_SS_AQUA),
    (c.song .MUS_SURF, c.song .MUS_HG_SURF),
    (c.song .MUS_POKE_TOWER, c.song .MUS_HG_BELL_TOWER),
    (c.song .MUS_SILPH, c.song .MUS_HG_ROCKET_TAKEOVER),
    (c.song .MUS_FUCHSIA, c.song .MUS_HG_CERULEAN),
    (c.song .MUS_CELADON, c.song .MUS_HG_CELADON),
    (c.song .MUS_VICTORY_TRAINER, c.song .MUS_HG_VICTORY_TRAINER),
    (c.song .MUS_VICTORY_WILD, c.song .MUS_HG_VICTORY_TRAINER),
    (c.song .MUS_VICTORY_GYM_LEADER, c.song .MUS_HG_VICTORY_TRAINER),
    (c.song .MUS_VERMILLION, c.song .MUS_HG_VERMILION),
    (c.song .MUS_PEWTER, c.song .MUS_HG_PEWTER),
    (c.song .MUS_ENCOUNTER_RIVAL, c.song .MUS_HG_ENCOUNTER_RIVAL),
    (c.song .MUS_RIVAL_EXIT, c.song .MUS_HG_RIVAL_EXIT),
    (c.song .MUS_DEX_RATING, c.song .MUS_HG_DEX_RATING_1),
    (c.song .MUS_OBTAIN_KEY_ITEM, c.song .MUS_HG_OBTAIN_KEY_ITEM),
    (c.song .MUS_CAUGHT_INTRO, c.song .MUS_HG_CAUGHT),
    (c.song .MUS_PHOTO, c.song .MUS_HG_CAUGHT),
    (c.song .MUS_GAME_FREAK, c.song .MUS_HG_INTRO),
    (c.song .MUS_CAUGHT, c.song .MUS_HG_CAUGHT),
    (c.song .MUS_NEW_GAME_INSTRUCT, c.song .MUS_HG_NEW_GAME),
    (c.song .MUS_NEW_GAME_INTRO, c.song .MUS_HG_NEW_GAME),
    (c.song .MUS_NEW_GAME_EXIT, c.song .MUS_HG_NEW_GAME),
    (c.song .MUS_POKE_JUMP, c.song .MUS_HG_BUG_CATCHING_CONTEST),
    (c.song .MUS_UNION_ROOM, c.song .MUS_HG_UNION_CAVE),
    (c.song .MUS_NET_CENTER, c.song .MUS_HG_POKE_CENTER),
    (c.song .MUS_MYSTERY_GIFT, c.song .MUS_HG_MYSTERY_GIFT),
    (c.song .MUS_BERRY_PICK, c.song .MUS_HG_OBTAIN_BERRY),
    (c.song .MUS_SEVII_CAVE, c.song .MUS_HG_UNION_CAVE),
    (c.song .MUS_TEACHY_TV_SHOW, c.song .MUS_HG_RADIO_OAK),
    (c.song .MUS_SEVII_ROUTE, c.song .MUS_HG_ROUTE26),
    (c.song .MUS_SEVII_DUNGEON, c.song .MUS_HG_VIRIDIAN_FOREST),
    (c.song .MUS_SEVII_123, c.song .MUS_HG_CHERRYGROVE),
    (c.song .MUS_SEVII_45, c.song .MUS_HG_VIOLET),
    (c.song .MUS_SEVII_67, c.song .MUS_HG_AZALEA),
    (c.song .MUS_POKE_FLUTE, c.song .MUS_HG_RADIO_POKE_FLUTE),
    (c.song .MUS_VS_DEOXYS, c.song .MUS_HG_VS_SUICUNE),
    (c.song .MUS_VS_MEWTWO, c.song .MUS_HG_VS_SUICUNE),
    (c.song .MUS_VS_LEGEND, c.song .MUS_HG_VS_SUICUNE),
    (c.song .MUS_ENCOUNTER_GYM_LEADER, c.song .MUS_HG_ENCOUNTER_KIMONO_GIRL),
    (c.song .MUS_ENCOUNTER_DEOXYS, c.song .MUS_HG_ENCOUNTER_RIVAL),
    (c.song .MUS_TRAINER_TOWER, c.song .MUS_HG_B_TOWER),
    (c.song .MUS_SLOW_PALLET, c.song .MUS_HG_PALLET),
    (c.song .MUS_TEACHY_TV_MENU, c.song .MUS_HG_RADIO_OAK)
  ]

/-- The function `HGSSMusicHandler`: the `switch` returns the value of the
`case` whose label equals `songNum`, and `songNum` itself in the `default`
case.  The labels of a `switch` are pairwise distinct, so at most one case
applies. -/
def HGSSMusicHandler (c : Consts) (songNum : Nat) : Nat :=
  match (hgssCases c).lookup songNum with
  | some song => song
  | none => songNum

/-- The function `RegionalMusicHandler`. -/
def RegionalMusicHandler (c : Consts) (e : Env) (songNum : Nat) : Nat :=
  let handler : Nat → Nat :=
    if e.optionsMusicSet = c.OPTIONS_MUSIC_HGSS then HGSSMusicHandler c
    else FireRedMusicHandler
  handler songNum

/-- The function `ResetMapMusic`. -/
def ResetMapMusic (s : State) : State :=
  { s with sCurrentMapMusic := 0, sNextMapMusic := 0, sMapMusicState := 0,
           sMapMusicFadeInSpeed := 0 }

/-- The function `InitMapMusic`. -/
def InitMapMusic (s : State) : State :=
  ResetMapMusic { s with gDisableMusic := false }

/-- The function `IsBGMStopped`. -/
def IsBGMStopped (c : Consts) (e : Env) (s : State) : Bool × State :=
  if e.bgmStatus &&& c.MUSICPLAYER_STATUS_TRACK = 0 then (true, s)
  else (false, s)

/-- The function `IsFanfareTaskInactive`. -/
def IsFanfareTaskInactive (s : State) : Bool × State :=
  if FuncIsActiveTask .Task_Fanfare s = true then (false, s)
  else (true, s)

/-- The function `PlayBGM`.  The two assignments to `songNum` come after
`song` has been computed and `songNum` is not read again. -/
def PlayBGM (c : Consts) (e : Env) (songNum : Nat) (s : State) : State :=
  let song := RegionalMusicHandler c e songNum
  let songNum := if s.gDisableMusic then 0 else songNum
  let _songNum := if songNum = c.song .MUS_NONE then 0 else songNum
  emit (.m4aSongNumStart song) s

/-- The function `FadeInNewBGM`. -/
def FadeInNewBGM (c : Consts) (songNum speed : Nat) (s : State) : State :=
  let songNum := if s.gDisableMusic then 0 else songNum
  let songNum := if songNum = c.song .MUS_NONE then 0 else songNum
  let s := emit (.m4aSongNumStart songNum) s
  let s := emit (.m4aMPlayImmInit .gMPlayInfo_BGM) s
  let s := emit (.m4aMPlayVolumeControl .gMPlayInfo_BGM c.TRACKS_ALL 0) s
  let s := emit (.m4aSongNumStop songNum) s
  emit (.m4aMPlayFadeIn .gMPlayInfo_BGM speed) s

/-- The function `MapMusicMain`. -/
def MapMusicMain (c : Consts) (e : Env) (s : State) : State :=
  match s.sMapMusicState with
  | 0 => s
  | 1 =>
    let s := { s with sMapMusicState := 2 }
    PlayBGM c e s.sCurrentMapMusic s
  | 2 => s
  | 3 => s
  | 4 => s
  | 5 =>
    let (stopped, s) := IsBGMStopped c e s
    if stopped then { s with sNextMapMusic := 0, sMapMusicState := 0 }
    else s
  | 6 =>
    let (stopped, s) := IsBGMStopped c e s
    if stopped then
      let (inactive, s) := IsFanfareTaskInactive s
      if inactive then
        let s := { s with sCurrentMapMusic := s.sNextMapMusic }
        let s := { s with sNextMapMusic := 0 }
        let s := { s with sMapMusicState := 2 }
        PlayBGM c e s.sCurrentMapMusic s
      else s
    else s
  | 7 =>
    let (stopped, s) := IsBGMStopped c e s
    if stopped then
      let (inactive, s) := IsFanfareTaskInactive s
      if inactive then
        let s := FadeInNewBGM c s.sNextMapMusic s.sMapMusicFadeInSpeed s
        let s := { s with sCurrentMapMusic := s.sNextMapMusic }
        let s := { s with sNextMapMusic := 0 }
        let s := { s with sMapMusicState := 2 }
        { s with sMapMusicFadeInSpeed := 0 }
      else s
    else s
  | _ => s

/-- The function `GetCurrentMapMusic`. -/
def GetCurrentMapMusic (s : State) : Nat × State :=
  (s.sCurrentMapMusic, s)

/-- The function `PlayNewMapMusic`. -/
def PlayNewMapMusic (songNum : Nat) (s : State) : State :=
  { s with sCurrentMapMusic := songNum, sNextMapMusic := 0, sMapMusicState := 1 }

/-- The function `StopMapMusic`. -/
def StopMapMusic (s : State) : State :=
  { s with sCurrentMapMusic := 0, sNextMapMusic := 0, sMapMusicState := 1 }

/-- The function `IsNotWaitingForBGMStop`. -/
def IsNotWaitingForBGMStop (s : State) : Bool × State :=
  if s.sMapMusicState = 6 then (false, s)
  else if s.sMapMusicState = 5 then (false, s)
  else if s.sMapMusicState = 7 then (false, s)
  else (true, s)

/-- The function `FadeOutBGM`. -/
def FadeOutBGM (speed : Nat) (s : State) : State :=
  emit (.m4aMPlayFadeOut .gMPlayInfo_BGM speed) s

/-- The function `FadeOutMapMusic`. -/
def FadeOutMapMusic (speed : Nat) (s : State) : State :=
  let (ready, s) := IsNotWaitingForBGMStop s
  let s := if ready then FadeOutBGM speed s else s
  { s with sCurrentMapMusic := 0, sNextMapMusic := 0, sMapMusicState := 5 }

/-- The function `FadeOutAndPlayNewMapMusic`. -/
def FadeOutAndPlayNewMapMusic (songNum speed : Nat) (s : State) : State :=
  let s := FadeOutMapMusic speed s
  { s with sCurrentMapMusic := 0, sNextMapMusic := songNum, sMapMusicState := 6 }

/-- The function `FadeOutAndFadeInNewMapMusic`. -/
def FadeOutAndFadeInNewMapMusic (songNum fadeOutSpeed fadeInSpeed : Nat) (s : State) :
    State :=
  let s := FadeOutMapMusic fadeOutSpeed s
  { s with sCurrentMapMusic := 0, sNextMapMusic := songNum, sMapMusicState := 7,
           sMapMusicFadeInSpeed := fadeInSpeed }

/-- The function `FadeInNewMapMusic`. -/
def FadeInNewMapMusic (c : Consts) (songNum speed : Nat) (s : State) : State :=
  let s := FadeInNewBGM c songNum speed s
  { s with sCurrentMapMusic := songNum, sNextMapMusic := 0, sMapMusicState := 2,
           sMapMusicFadeInSpeed := 0 }

/-- The function `PlayFanfareByFanfareNum`.  The result is `none` when
`fanfareNum` lies outside `sFanfares`, where the C code reads past the
table. -/
def PlayFanfareByFanfareNum (c : Consts) (e : Env) (fanfareNum : Nat) (s : State) :
    Option State :=
  if e.gQuestLogState = c.QL_STATE_PLAYBACK then
    some { s with sFanfareCounter := 0xFF }
  else
    let s := emit (.m4aMPlayStop .gMPlayInfo_BGM) s
    match (sFanfares c)[fanfareNum]? with
    | none => none
    | some fanfare =>
      let songNum := RegionalMusicHandler c e fanfare.songNum
      let s := { s with sFanfareCounter := RegionalMusicHandler c e fanfare.duration }
      some (emit (.m4aSongNumStart songNum) s)

/-- The function `WaitFanfare`. -/
def WaitFanfare (c : Consts) (stop : Bool) (s : State) : Bool × State :=
  if s.sFanfareCounter ≠ 0 then
    (false, { s with sFanfareCounter := decU16 s.sFanfareCounter })
  else if !stop then
    (true, emit (.m4aMPlayContinue .gMPlayInfo_BGM) s)
  else
    (true, emit (.m4aSongNumStart (c.song .MUS_DUMMY)) s)

/-- The function `StopFanfareByFanfareNum`; `none` when `fanfareNum` lies
outside `sFanfares`. -/
def StopFanfareByFanfareNum (c : Consts) (fanfareNum : Nat) (s : State) : Option State :=
  match (sFanfares c)[fanfareNum]? with
  | none => none
  | some fanfare => some (emit (.m4aSongNumStop fanfare.songNum) s)

/-- The function `CreateFanfareTask`. -/
def CreateFanfareTask (s : State) : State :=
  if FuncIsActiveTask .Task_Fanfare s ≠ true then CreateTask .Task_Fanfare 80 s
  else s

/-- The `for` loop of `PlayFanfare` together with the two statements after it:
`i` is the loop variable and `n` the number of iterations left before
`i` reaches `ARRAY_COUNT(sFanfares)`.  `none` when a table read is out of
range. -/
def PlayFanfare.loop (c : Consts) (e : Env) (songNum : Nat) (s : State) :
    Nat → Nat → Option State
  | 0, _ =>
    (PlayFanfareByFanfareNum c e 0 s).map CreateFanfareTask
  | n + 1, i =>
    match (sFanfares c)[i]? with
    | none => none
    | some fanfare =>
      if fanfare.songNum = songNum then
        (PlayFanfareByFanfareNum c e i s).map CreateFanfareTask
      else PlayFanfare.loop c e songNum s n (i + 1)

/-- The function `PlayFanfare`. -/
def PlayFanfare (c : Consts) (e : Env) (songNum : Nat) (s : State) : Option State :=
  PlayFanfare.loop c e songNum s (sFanfares c).length 0

/-- The function `Task_Fanfare`. -/
def Task_Fanfare (e : Env) (taskId : Nat) (s : State) : State :=
  if e.gTestRunnerHeadless then
    let s := DestroyTask taskId s
    { s with sFanfareCounter := 0 }
  else if s.sFanfareCounter ≠ 0 then
    { s with sFanfareCounter := decU16 s.sFanfareCounter }
  else
    let s := emit (.m4aMPlayContinue .gMPlayInfo_BGM) s
    DestroyTask taskId s

/-- The local variables of `PlayCryInternal` that the `switch` on `mode` may
assign (`volume` is the parameter of that name). -/
structure CryLocals where
  reverse : Bool
  release : Nat
  length : Nat
  pitch : Nat
  chorus : Nat
  volume : Int
  deriving DecidableEq, Repr

/-- The `switch (mode)` of `PlayCryInternal`, applied to the locals.  The case
`CRY_MODE_WEAK_DOUBLES` falls through into `CRY_MODE_WEAK`. -/
def PlayCryInternal.switch (mode : Nat) (l : CryLocals) : CryLocals :=
  if mode = CRY_MODE_NORMAL then l
  else if mode = CRY_MODE_DOUBLES then
    { l with length := 20, release := 225 }
  else if mode = CRY_MODE_ENCOUNTER then
    { l with release := 225, pitch := 15600, chorus := 20, volume := 90 }
  else if mode = CRY_MODE_HIGH_PITCH then
    { l with length := 50, release := 200, pitch := 15800, chorus := 20, volume := 90 }
  else if mode = CRY_MODE_ECHO_START then
    { l with length := 25, reverse := true, release := 100, pitch := 15600, chorus := 192,
             volume := 90 }
  else if mode = CRY_MODE_FAINT then
    { l with release := 200, pitch := 14440 }
  else if mode = CRY_MODE_ECHO_END then
    { l with release := 220, pitch := 15555, chorus := 192, volume := 90 }
  else if mode = CRY_MODE_ROAR_1 then
    { l with length := 10, release := 100, pitch := 14848 }
  else if mode = CRY_MODE_ROAR_2 then
    { l with length := 60, release := 225, pitch := 15616 }
  else if mode = CRY_MODE_GROWL_1 then
    { l with length := 15, reverse := true, release := 125, pitch := 15200 }
  else if mode = CRY_MODE_GROWL_2 then
    { l with length := 100, release := 225, pitch := 15200 }
  else if mode = CRY_MODE_WEAK_DOUBLES then
    let l := { l with length := 20, release := 225 }
    { l with pitch := 15000 }
  else if mode = CRY_MODE_WEAK then
    { l with pitch := 15000 }
  else l

/-- The function `PlayCryInternal`. -/
def PlayCryInternal (c : Consts) (e : Env) (species : Nat) (pan volume : Int)
    (priority mode : Nat) (s : State) : State :=
  let l : CryLocals :=
    { length := 210, reverse := false, release := 0, pitch := 15360, chorus := 0,
      volume := volume }
  let l := PlayCryInternal.switch mode l
  let s := emit (.SetPokemonCryVolume l.volume) s
  let s := emit (.SetPokemonCryPanpot pan) s
  let s := emit (.SetPokemonCryPitch l.pitch) s
  let s := emit (.SetPokemonCryLength l.length) s
  let s := emit (.SetPokemonCryProgress 0) s
  let s := emit (.SetPokemonCryRelease l.release) s
  let s := emit (.SetPokemonCryChorus l.chorus) s
  let s := emit (.SetPokemonCryPriority priority) s
  let cryId := c.GetCryIdBySpecies species
  if cryId ≠ CRY_NONE then
    let cryId := cryId - 1
    let tone := if l.reverse then ToneRef.gCryTable_Reverse cryId else ToneRef.gCryTable cryId
    let s := emit (.SetPokemonCryTone tone) s
    { s with gMPlay_PokemonCry := e.SetPokemonCryTone tone }
  else s

/-- The function `RestoreBGMVolumeAfterPokemonCry`. -/
def RestoreBGMVolumeAfterPokemonCry (s : State) : State :=
  if FuncIsActiveTask .Task_DuckBGMForPokemonCry s ≠ true then
    CreateTask .Task_DuckBGMForPokemonCry 80 s
  else s

/-- The function `PlayCry_Normal`. -/
def PlayCry_Normal (c : Consts) (e : Env) (species : Nat) (pan : Int) (s : State) : State :=
  let s := emit (.m4aMPlayVolumeControl .gMPlayInfo_BGM c.TRACKS_ALL 85) s
  let s := PlayCryInternal c e species pan c.CRY_VOLUME c.CRY_PRIORITY_NORMAL CRY_MODE_NORMAL s
  let s := { s with gPokemonCryBGMDuckingCounter := 2 }
  RestoreBGMVolumeAfterPokemonCry s

/-- The function `PlayCry_NormalNoDucking`. -/
def PlayCry_NormalNoDucking (c : Consts) (e : Env) (species : Nat) (pan volume : Int)
    (priority : Nat) (s : State) : State :=
  PlayCryInternal c e species pan volume priority CRY_MODE_NORMAL s

/-- The function `PlayCry_ByMode`. -/
def PlayCry_ByMode (c : Consts) (e : Env) (species : Nat) (pan : Int) (mode : Nat)
    (s : State) : State :=
  if mode = CRY_MODE_DOUBLES then
    PlayCryInternal c e species pan c.CRY_VOLUME c.CRY_PRIORITY_NORMAL mode s
  else
    let s := emit (.m4aMPlayVolumeControl .gMPlayInfo_BGM c.TRACKS_ALL 85) s
    let s := PlayCryInternal c e species pan c.CRY_VOLUME c.CRY_PRIORITY_NORMAL mode s
    let s := { s with gPokemonCryBGMDuckingCounter := 2 }
    RestoreBGMVolumeAfterPokemonCry s

/-- The function `PlayCry_ReleaseDouble`. -/
def PlayCry_ReleaseDouble (c : Consts) (e : Env) (species : Nat) (pan : Int) (mode : Nat)
    (s : State) : State :=
  if mode = CRY_MODE_DOUBLES then
    PlayCryInternal c e species pan c.CRY_VOLUME c.CRY_PRIORITY_NORMAL mode s
  else
    let s :=
      if e.gBattleTypeFlags &&& c.BATTLE_TYPE_MULTI = 0 then
        emit (.m4aMPlayVolumeControl .gMPlayInfo_BGM c.TRACKS_ALL 85) s
      else s
    PlayCryInternal c e species pan c.CRY_VOLUME c.CRY_PRIORITY_NORMAL mode s

/-- The function `PlayCry_DuckNoRestore`. -/
def PlayCry_DuckNoRestore (c : Consts) (e : Env) (species : Nat) (pan : Int) (mode : Nat)
    (s : State) : State :=
  if mode = CRY_MODE_DOUBLES then
    PlayCryInternal c e species pan c.CRY_VOLUME c.CRY_PRIORITY_NORMAL mode s
  else
    let s := emit (.m4aMPlayVolumeControl .gMPlayInfo_BGM c.TRACKS_ALL 85) s
    let s := PlayCryInternal c e species pan c.CRY_VOLUME c.CRY_PRIORITY_NORMAL mode s
    { s with gPokemonCryBGMDuckingCounter := 2 }

/-- The function `PlayCry_Script`. -/
def PlayCry_Script (c : Consts) (e : Env) (species mode : Nat) (s : State) : State :=
  let s :=
    if !e.QL_IS_PLAYBACK_STATE then
      let s := emit (.m4aMPlayVolumeControl .gMPlayInfo_BGM c.TRACKS_ALL 85) s
      PlayCryInternal c e species 0 c.CRY_VOLUME c.CRY_PRIORITY_NORMAL mode s
    else s
  let s := { s with gPokemonCryBGMDuckingCounter := 2 }
  RestoreBGMVolumeAfterPokemonCry s

/-- The function `IsCryFinished`. -/
def IsCryFinished (s : State) : Bool × State :=
  if FuncIsActiveTask .Task_DuckBGMForPokemonCry s = true then (false, s)
  else (true, emit .ClearPokemonCrySongs s)

/-- The function `StopCryAndClearCrySongs`. -/
def StopCryAndClearCrySongs (s : State) : State :=
  let s := emit (.m4aMPlayStop (.ptr s.gMPlay_PokemonCry)) s
  emit .ClearPokemonCrySongs s

/-- The function `StopCry`. -/
def StopCry (s : State) : State :=
  emit (.m4aMPlayStop (.ptr s.gMPlay_PokemonCry)) s

/-- The function `IsCryPlayingOrClearCrySongs`. -/
def IsCryPlayingOrClearCrySongs (e : Env) (s : State) : Bool × State :=
  if e.IsPokemonCryPlaying s.gMPlay_PokemonCry then (true, s)
  else (false, emit .ClearPokemonCrySongs s)

/-- The function `IsCryPlaying`. -/
def IsCryPlaying (e : Env) (s : State) : Bool × State :=
  if e.IsPokemonCryPlaying s.gMPlay_PokemonCry then (true, s)
  else (false, s)

/-- The function `Task_DuckBGMForPokemonCry`. -/
def Task_DuckBGMForPokemonCry (c : Consts) (e : Env) (taskId : Nat) (s : State) : State :=
  if s.gPokemonCryBGMDuckingCounter ≠ 0 then
    { s with gPokemonCryBGMDuckingCounter := decU8 s.gPokemonCryBGMDuckingCounter }
  else if !e.IsPokemonCryPlaying s.gMPlay_PokemonCry then
    let s := emit (.m4aMPlayVolumeControl .gMPlayInfo_BGM c.TRACKS_ALL 256) s
    DestroyTask taskId s
  else s

/-- The function `PlaySE`. -/
def PlaySE (c : Consts) (e : Env) (songNum : Nat) (s : State) : State :=
  if e.gDisableMapMusicChangeOnMapLoad = 0 ∧ e.gQuestLogState ≠ c.QL_STATE_PLAYBACK then
    emit (.m4aSongNumStart (RegionalMusicHandler c e songNum)) s
  else s

/-- The function `PlaySE12WithPanning`. -/
def PlaySE12WithPanning (c : Consts) (songNum : Nat) (pan : Int) (s : State) : State :=
  let s := emit (.m4aSongNumStart songNum) s
  let s := emit (.m4aMPlayImmInit .gMPlayInfo_SE1) s
  let s := emit (.m4aMPlayImmInit .gMPlayInfo_SE2) s
  let s := emit (.m4aMPlayPanpotControl .gMPlayInfo_SE1 c.TRACKS_ALL pan) s
  emit (.m4aMPlayPanpotControl .gMPlayInfo_SE2 c.TRACKS_ALL pan) s

/-- The function `PlaySE1WithPanning`. -/
def PlaySE1WithPanning (c : Consts) (songNum : Nat) (pan : Int) (s : State) : State :=
  let s := emit (.m4aSongNumStart songNum) s
  let s := emit (.m4aMPlayImmInit .gMPlayInfo_SE1) s
  emit (.m4aMPlayPanpotControl .gMPlayInfo_SE1 c.TRACKS_ALL pan) s

/-- The function `PlaySE2WithPanning`. -/
def PlaySE2WithPanning (c : Consts) (songNum : Nat) (pan : Int) (s : State) : State :=
  let s := emit (.m4aSongNumStart songNum) s
  let s := emit (.m4aMPlayImmInit .gMPlayInfo_SE2) s
  emit (.m4aMPlayPanpotControl .gMPlayInfo_SE2 c.TRACKS_ALL pan) s

/-- The function `FadeOutBGMTemporarily`. -/
def FadeOutBGMTemporarily (speed : Nat) (s : State) : State :=
  emit (.m4aMPlayFadeOutTemporarily .gMPlayInfo_BGM speed) s

/-- The function `IsBGMPausedOrStopped`. -/
def IsBGMPausedOrStopped (c : Consts) (e : Env) (s : State) : Bool × State :=
  if e.bgmStatus &&& c.MUSICPLAYER_STATUS_PAUSE ≠ 0 then (true, s)
  else if e.bgmStatus &&& c.MUSICPLAYER_STATUS_TRACK = 0 then (true, s)
  else (false, s)

/-- The function `FadeInBGM`. -/
def FadeInBGM (speed : Nat) (s : State) : State :=
  emit (.m4aMPlayFadeIn .gMPlayInfo_BGM speed) s

/-- The function `SE12PanpotControl`. -/
def SE12PanpotControl (c : Consts) (pan : Int) (s : State) : State :=
  let s := emit (.m4aMPlayPanpotControl .gMPlayInfo_SE1 c.TRACKS_ALL pan) s
  emit (.m4aMPlayPanpotControl .gMPlayInfo_SE2 c.TRACKS_ALL pan) s

/-- The function `IsSEPlaying`. -/
def IsSEPlaying (c : Consts) (e : Env) (s : State) : Bool × State :=
  if e.se1Status &&& c.MUSICPLAYER_STATUS_PAUSE ≠ 0 ∧
      e.se2Status &&& c.MUSICPLAYER_STATUS_PAUSE ≠ 0 then (false, s)
  else if e.se1Status &&& c.MUSICPLAYER_STATUS_TRACK = 0 ∧
      e.se2Status &&& c.MUSICPLAYER_STATUS_TRACK = 0 then (false, s)
  else (true, s)

/-- The function `IsBGMPlaying`. -/
def IsBGMPlaying (c : Consts) (e : Env) (s : State) : Bool × State :=
  if e.bgmStatus &&& c.MUSICPLAYER_STATUS_PAUSE ≠ 0 then (false, s)
  else if e.bgmStatus &&& c.MUSICPLAYER_STATUS_TRACK = 0 then (false, s)
  else (true, s)

/-- The function `IsSpecialSEPlaying`. -/
def IsSpecialSEPlaying (c : Consts) (e : Env) (s : State) : Bool × State :=
  if e.se3Status &&& c.MUSICPLAYER_STATUS_PAUSE ≠ 0 then (false, s)
  else if e.se3Status &&& c.MUSICPLAYER_STATUS_TRACK = 0 then (false, s)
  else (true, s)

/-- The function `SetBGMVolume_SuppressHelpSystemReduction`. -/
def SetBGMVolume_SuppressHelpSystemReduction (c : Consts) (volume : Nat) (s : State) : State :=
  let s := { s with gDisableHelpSystemVolumeReduce := true }
  emit (.m4aMPlayVolumeControl .gMPlayInfo_BGM c.TRACKS_ALL volume) s

/-- The function `BGMVolumeMax_EnableHelpSystemReduction`. -/
def BGMVolumeMax_EnableHelpSystemReduction (c : Consts) (s : State) : State :=
  let s := { s with gDisableHelpSystemVolumeReduce := false }
  emit (.m4aMPlayVolumeControl .gMPlayInfo_BGM c.TRACKS_ALL 256) s

/-! ## Repeated calls -/

/-- The state after `n` successive calls `WaitFanfare(FALSE)`. -/
def WaitFanfareRepeat (c : Consts) : Nat → State → State
  | 0, s => s
  | n + 1, s => WaitFanfareRepeat c n (WaitFanfare c false s).2

/-- The state after the task runner has run `Task_Fanfare` with the given
task id once for every environment of the list, in order. -/
def Task_FanfareTicks (taskId : Nat) : List Env → State → State
  | [], s => s
  | e :: es, s => Task_FanfareTicks taskId es (Task_Fanfare e taskId s)

/-! ## Sequences of operations -/

/-- One event in the life of the fanfare task: a call of `PlayFanfare`, or a
tick, in which the task runner calls `Task_Fanfare` with a task id.  Each event
comes with the environment it happens in. -/
inductive FanfareEvent
  | PlayFanfare (e : Env) (songNum : Nat)
  | Task_Fanfare (e : Env) (taskId : Nat)

/-- The effect of one fanfare event; `none` when a table read is out of
range. -/
def FanfareEvent.run (c : Consts) : FanfareEvent → State → Option State
  | .PlayFanfare e songNum, s => Sound.PlayFanfare c e songNum s
  | .Task_Fanfare e taskId, s => some (Sound.Task_Fanfare e taskId s)

/-- The effect of a sequence of fanfare events, first event first. -/
def runFanfareEvents (c : Consts) : List FanfareEvent → State → Option State
  | [], s => some s
  | ev :: evs, s =>
    match ev.run c s with
    | none => none
    | some s1 => runFanfareEvents c evs s1

/-- The number of registered tasks whose function is `Task_Fanfare`. -/
def fanfareTaskCount (s : State) : Nat :=
  s.tasks.countP (fun t => t.func == .Task_Fanfare)

/-- One operation on the map music: a call of one of the five entry functions,
or a `MapMusicMain` tick in some environment. -/
inductive MapMusicOp
  | PlayNewMapMusic (songNum : Nat)
  | StopMapMusic
  | FadeOutMapMusic (speed : Nat)
  | FadeOutAndPlayNewMapMusic (songNum speed : Nat)
  | FadeOutAndFadeInNewMapMusic (songNum fadeOutSpeed fadeInSpeed : Nat)
  | MapMusicMain (e : Env)

/-- The effect of one map-music operation. -/
def MapMusicOp.run (c : Consts) : MapMusicOp → State → State
  | .PlayNewMapMusic songNum, s => Sound.PlayNewMapMusic songNum s
  | .StopMapMusic, s => Sound.StopMapMusic s
  | .FadeOutMapMusic speed, s => Sound.FadeOutMapMusic speed s
  | .FadeOutAndPlayNewMapMusic songNum speed, s =>
    Sound.FadeOutAndPlayNewMapMusic songNum speed s
  | .FadeOutAndFadeInNewMapMusic songNum fadeOutSpeed fadeInSpeed, s =>
    Sound.FadeOutAndFadeInNewMapMusic songNum fadeOutSpeed fadeInSpeed s
  | .MapMusicMain e, s => Sound.MapMusicMain c e s

/-- The effect of a sequence of map-music operations, first operation first. -/
def runMapMusicOps (c : Consts) : List MapMusicOp → State → State
  | [], s => s
  | op :: ops, s => runMapMusicOps c ops (op.run c s)

/-- The map-music invariant: the state is one of `0`, `1`, `2`, `5`, `6`, `7`;
pending is `0` unless the state is `6` or `7`; current is `0` when the state
is `5`, `6` or `7`. -/
def MapMusicInv (s : State) : Prop :=
  (s.sMapMusicState = 0 ∨ s.sMapMusicState = 1 ∨ s.sMapMusicState = 2 ∨
    s.sMapMusicState = 5 ∨ s.sMapMusicState = 6 ∨ s.sMapMusicState = 7) ∧
  (s.sMapMusicState ≠ 6 → s.sMapMusicState ≠ 7 → s.sNextMapMusic = 0) ∧
  (s.sMapMusicState = 5 ∨ s.sMapMusicState = 6 ∨ s.sMapMusicState = 7 →
    s.sCurrentMapMusic = 0)

/-! ## The cry parameters in the words of the spec -/

/-- The engine calls that push one cry: the eight setters in the order of
`PlayCryInternal`, with progress `0`, and then, when the species has a cry
(`cryId` is not `CRY_NONE`), the selection of entry `cryId - 1` of the reverse
tone table when `reverse` is set and of the forward tone table otherwise. -/
def cryCalls (cryId : Nat) (pan volume : Int) (priority length release pitch chorus : Nat)
    (reverse : Bool) : List Call :=
  [.SetPokemonCryVolume volume, .SetPokemonCryPanpot pan, .SetPokemonCryPitch pitch,
    .SetPokemonCryLength length, .SetPokemonCryProgress 0, .SetPokemonCryRelease release,
    .SetPokemonCryChorus chorus, .SetPokemonCryPriority priority] ++
  (if cryId ≠ CRY_NONE then
    [.SetPokemonCryTone
      (if reverse then ToneRef.gCryTable_Reverse (cryId - 1) else ToneRef.gCryTable (cryId - 1))]
  else [])

/-! ## Concrete values for evaluating the module -/

/-- A sample assignment of song numbers: `MUS_DUMMY` is `0`, `MUS_NONE` is
`0xFFFF`, every other constant gets its own number from `256` on. -/
def sampleSong : SongName → Nat
  | .MUS_DUMMY => 0
  | .MUS_NONE => 0xFFFF
  | n => 256 + n.toCtorIdx

/-- A sample choice of the constants, with no species having a cry but
species `1` (cry id `1`) and species `2` (cry id `2`). -/
def sampleConsts : Consts where
  song := sampleSong
  OPTIONS_MUSIC_FIRERED := 0
  OPTIONS_MUSIC_HGSS := 1
  QL_STATE_PLAYBACK := 2
  TRACKS_ALL := 0xFFFF
  MUSICPLAYER_STATUS_TRACK := 0x0000FFFF
  MUSICPLAYER_STATUS_PAUSE := 0x80000000
  CRY_VOLUME := 120
  CRY_PRIORITY_NORMAL := 10
  BATTLE_TYPE_MULTI := 64
  GetCryIdBySpecies := fun species => if species = 1 ∨ species = 2 then species else CRY_NONE

/-- A sample environment: FireRed music, no quest-log playback, not headless,
BGM stopped, no cry playing. -/
def sampleEnv : Env where
  optionsMusicSet := 0
  gQuestLogState := 0
  QL_IS_PLAYBACK_STATE := false
  gTestRunnerHeadless := false
  gDisableMapMusicChangeOnMapLoad := 0
  gBattleTypeFlags := 0
  bgmStatus := 0
  se1Status := 0
  se2Status := 0
  se3Status := 0
  IsPokemonCryPlaying := fun _ => false
  SetPokemonCryTone := fun _ => 1

/-- The sample environment with the HGSS music option. -/
def sampleEnvHGSS : Env :=
  { sampleEnv with optionsMusicSet := 1 }

/-- The state after start-up: all variables zero, no task, no engine call. -/
def initState : State where
  gMPlay_PokemonCry := 0
  gPokemonCryBGMDuckingCounter := 0
  sCurrentMapMusic := 0
  sNextMapMusic := 0
  sMapMusicState := 0
  sMapMusicFadeInSpeed := 0
  sFanfareCounter := 0
  gDisableMusic := false
  gDisableHelpSystemVolumeReduce := false
  tasks := []
  calls := []

/-- The sample environment in quest-log playback. -/
def sampleEnvPlayback : Env :=
  { sampleEnv with gQuestLogState := 2 }

/-- The sample environment with a BGM track still active (BGM not stopped). -/
def sampleEnvBGMActive : Env :=
  { sampleEnv with bgmStatus := 1 }

/-- The sample environment in headless test mode. -/
def sampleEnvHeadless : Env :=
  { sampleEnv with gTestRunnerHeadless := true }


/-! ## Theorems -/

/-- On the values of a `u16`, `decU16` is the decrement modulo `2 ^ 16`. -/
theorem decU16_eq_mod (n : Nat) (h : n < 2 ^ 16) :
    decU16 n = (n + (2 ^ 16 - 1)) % 2 ^ 16 := by
  unfold decU16
  split_ifs with h0
  · subst h0; rfl
  · omega

/-- On the values of a `u8`, `decU8` is the decrement modulo `2 ^ 8`. -/
theorem decU8_eq_mod (n : Nat) (h : n < 2 ^ 8) :
    decU8 n = (n + (2 ^ 8 - 1)) % 2 ^ 8 := by
  unfold decU8
  split_ifs with h0
  · subst h0; rfl
  · omega

/-- While the countdown lasts, `k` calls of `WaitFanfare(FALSE)` only lower
the countdown by `k`. -/
theorem WaitFanfareRepeat_of_le (c : Consts) (k : Nat) (s : State)
    (hk : k ≤ s.sFanfareCounter) :
    WaitFanfareRepeat c k s = { s with sFanfareCounter := s.sFanfareCounter - k } := by
  induction k generalizing s with
  | zero => simp [WaitFanfareRepeat]
  | succ n ih =>
    have hne : s.sFanfareCounter ≠ 0 := by omega
    have hstep : (WaitFanfare c false s).2 =
        { s with sFanfareCounter := s.sFanfareCounter - 1 } := by
      simp [WaitFanfare, decU16, hne]
    rw [WaitFanfareRepeat, hstep, ih]
    · simp only [Nat.sub_sub]
      congr 1
      omega
    · simp only
      omega

/-- C1 (as amended): outside log-playback mode, for every index `i` of the
fanfare table, `PlayFanfareByFanfareNum(i)` succeeds and arms the countdown
with `d`, the table duration of `i` passed through the region remapper; then
each of the first `d` calls `WaitFanfare(FALSE)` returns FALSE, and the call
after them, number `d + 1`, returns TRUE and resumes the BGM with
`m4aMPlayContinue` on the BGM player as its only engine call. -/
theorem C1_waitFanfare_counts_d_then_finishes (c : Consts) (e : Env) (i : Nat) (s : State)
    (hq : e.gQuestLogState ≠ c.QL_STATE_PLAYBACK) (hi : i < 45) :
    ∃ fanfare s1, (sFanfares c)[i]? = some fanfare ∧
      PlayFanfareByFanfareNum c e i s = some s1 ∧
      s1.sFanfareCounter = RegionalMusicHandler c e fanfare.duration ∧
      (∀ k, k < s1.sFanfareCounter →
        WaitFanfare c false (WaitFanfareRepeat c k s1) =
          (false, WaitFanfareRepeat c (k + 1) s1)) ∧
      WaitFanfare c false (WaitFanfareRepeat c s1.sFanfareCounter s1) =
        (true, emit (.m4aMPlayContinue .gMPlayInfo_BGM) { s1 with sFanfareCounter := 0 }) := by
  have hlen : (sFanfares c).length = 45 := rfl
  have hi2 : i < (sFanfares c).length := by omega
  refine ⟨(sFanfares c)[i],
    emit (.m4aSongNumStart (RegionalMusicHandler c e (sFanfares c)[i].songNum))
      { emit (.m4aMPlayStop .gMPlayInfo_BGM) s with
        sFanfareCounter := RegionalMusicHandler c e (sFanfares c)[i].duration },
    List.getElem?_eq_getElem hi2, ?_, rfl, ?_, ?_⟩
  · simp only [PlayFanfareByFanfareNum, hq, if_false, List.getElem?_eq_getElem hi2]
  · intro k hk
    rw [WaitFanfareRepeat_of_le c k _ (Nat.le_of_lt hk),
      WaitFanfareRepeat_of_le c (k + 1) _ hk]
    have hne : (RegionalMusicHandler c e (sFanfares c)[i].duration) - k ≠ 0 := by
      simp only [emit] at hk
      omega
    simp [WaitFanfare, decU16, emit, hne, Nat.sub_sub]
  · rw [WaitFanfareRepeat_of_le c _ _ (Nat.le_refl _)]
    simp [WaitFanfare, decU16, emit]

/-- Witness for C1: fanfare `2` in the sample FireRed environment. -/
theorem C1_waitFanfare_counts_d_then_finishes_witness :
    sampleEnv.gQuestLogState ≠ sampleConsts.QL_STATE_PLAYBACK ∧ 2 < 45 ∧
    ∃ fanfare s1, (sFanfares sampleConsts)[2]? = some fanfare ∧
      PlayFanfareByFanfareNum sampleConsts sampleEnv 2 initState = some s1 ∧
      s1.sFanfareCounter = RegionalMusicHandler sampleConsts sampleEnv fanfare.duration ∧
      (∀ k, k < s1.sFanfareCounter →
        WaitFanfare sampleConsts false (WaitFanfareRepeat sampleConsts k s1) =
          (false, WaitFanfareRepeat sampleConsts (k + 1) s1)) ∧
      WaitFanfare sampleConsts false (WaitFanfareRepeat sampleConsts s1.sFanfareCounter s1) =
        (true, emit (.m4aMPlayContinue .gMPlayInfo_BGM) { s1 with sFanfareCounter := 0 }) :=
  ⟨by decide, by decide,
    C1_waitFanfare_counts_d_then_finishes sampleConsts sampleEnv 2 initState (by decide)
      (by decide)⟩

/-- C1 fails as stated: in the sample FireRed environment fanfare `0` arms the
countdown with `d = 80`, and the 80th call `WaitFanfare(FALSE)` (the call made
after 79 earlier ones) still returns FALSE and makes no engine call; only the
81st call returns TRUE. -/
theorem C1_counterexample :
    (PlayFanfareByFanfareNum sampleConsts sampleEnv 0 initState).map
      (fun s1 => (s1.sFanfareCounter,
        (WaitFanfare sampleConsts false (WaitFanfareRepeat sampleConsts 79 s1)).1,
        decide ((WaitFanfare sampleConsts false (WaitFanfareRepeat sampleConsts 79 s1)).2.calls
          = s1.calls),
        (WaitFanfare sampleConsts false (WaitFanfareRepeat sampleConsts 80 s1)).1))
      = some (80, false, true, true) := by
  have h : PlayFanfareByFanfareNum sampleConsts sampleEnv 0 initState =
      some { initState with
        sFanfareCounter := 80
        calls := [.m4aMPlayStop .gMPlayInfo_BGM, .m4aSongNumStart 256] } := by
    decide
  rw [h]
  simp only [Option.map_some', Option.some.injEq, Prod.mk.injEq]
  rw [WaitFanfareRepeat_of_le _ 79 _ (by decide), WaitFanfareRepeat_of_le _ 80 _ (by decide)]
  simp [WaitFanfare, decU16, emit]

/-- Removing a task that satisfies `p` lowers the number of such tasks by one. -/
theorem countP_eraseIdx_add_one {α : Type} (p : α → Bool) :
    ∀ (l : List α) (i : Nat) (a : α), l[i]? = some a → p a = true →
      (l.eraseIdx i).countP p + 1 = l.countP p := by
  intro l
  induction l with
  | nil => intro i a h; simp at h
  | cons x xs ih =>
    intro i a h hp
    cases i with
    | zero =>
      simp only [List.getElem?_cons_zero, Option.some.injEq] at h
      subst h
      simp [List.countP_cons, hp]
    | succ j =>
      simp only [List.getElem?_cons_succ] at h
      have := ih j a h hp
      simp only [List.eraseIdx_cons_succ, List.countP_cons]
      omega

/-- A task function is active exactly when some registered task has it. -/
theorem FuncIsActiveTask_eq_false_iff (func : TaskFunc) (s : State) :
    FuncIsActiveTask func s = false ↔ s.tasks.countP (fun t => t.func == func) = 0 := by
  simp [FuncIsActiveTask, List.countP_eq_zero]

/-- A task function is active when the number of its registered tasks is positive. -/
theorem FuncIsActiveTask_eq_true_iff (func : TaskFunc) (s : State) :
    FuncIsActiveTask func s = true ↔ 0 < s.tasks.countP (fun t => t.func == func) := by
  simp [FuncIsActiveTask, List.countP_pos_iff]

/-- C2 (as amended): after a ducking request (ducking counter `2`, the ducking
task registered once, under `taskId`), the first tick of the ducking task only
lowers the counter to `1` and the second only lowers it to `0`: neither
restores the BGM volume, and the task stays registered.  The third tick, taken
while the cry is not playing, restores the BGM volume to the maximum `256` and
unregisters the task. -/
theorem C2_ducking_restores_on_third_tick (c : Consts) (e1 e2 e3 : Env) (taskId : Nat)
    (s : State)
    (hc : s.gPokemonCryBGMDuckingCounter = 2)
    (ht : (s.tasks[taskId]?).map Task.func = some .Task_DuckBGMForPokemonCry)
    (h1 : s.tasks.countP (fun t => t.func == .Task_DuckBGMForPokemonCry) = 1)
    (hcry : e3.IsPokemonCryPlaying s.gMPlay_PokemonCry = false) :
    Task_DuckBGMForPokemonCry c e1 taskId s =
        { s with gPokemonCryBGMDuckingCounter := 1 } ∧
      FuncIsActiveTask .Task_DuckBGMForPokemonCry
        (Task_DuckBGMForPokemonCry c e1 taskId s) = true ∧
      Task_DuckBGMForPokemonCry c e2 taskId (Task_DuckBGMForPokemonCry c e1 taskId s) =
        { s with gPokemonCryBGMDuckingCounter := 0 } ∧
      FuncIsActiveTask .Task_DuckBGMForPokemonCry
        (Task_DuckBGMForPokemonCry c e2 taskId (Task_DuckBGMForPokemonCry c e1 taskId s))
          = true ∧
      (Task_DuckBGMForPokemonCry c e3 taskId
        (Task_DuckBGMForPokemonCry c e2 taskId (Task_DuckBGMForPokemonCry c e1 taskId s))).calls
          = s.calls ++ [.m4aMPlayVolumeControl .gMPlayInfo_BGM c.TRACKS_ALL 256] ∧
      FuncIsActiveTask .Task_DuckBGMForPokemonCry
        (Task_DuckBGMForPokemonCry c e3 taskId
          (Task_DuckBGMForPokemonCry c e2 taskId (Task_DuckBGMForPokemonCry c e1 taskId s)))
          = false := by
  have hs1 : Task_DuckBGMForPokemonCry c e1 taskId s =
      { s with gPokemonCryBGMDuckingCounter := 1 } := by
    simp [Task_DuckBGMForPokemonCry, decU8, hc]
  have hs2 : Task_DuckBGMForPokemonCry c e2 taskId
      { s with gPokemonCryBGMDuckingCounter := 1 } =
      { s with gPokemonCryBGMDuckingCounter := 0 } := by
    simp [Task_DuckBGMForPokemonCry, decU8]
  have hact : ∀ n, FuncIsActiveTask .Task_DuckBGMForPokemonCry
      { s with gPokemonCryBGMDuckingCounter := n } = true := by
    intro n
    rw [FuncIsActiveTask_eq_true_iff]
    simp only [h1]
    decide
  have hs3 : Task_DuckBGMForPokemonCry c e3 taskId
      { s with gPokemonCryBGMDuckingCounter := 0 } =
      DestroyTask taskId (emit (.m4aMPlayVolumeControl .gMPlayInfo_BGM c.TRACKS_ALL 256)
        { s with gPokemonCryBGMDuckingCounter := 0 }) := by
    simp [Task_DuckBGMForPokemonCry, decU8, hcry]
  rw [hs1, hs2, hs3]
  refine ⟨rfl, hact 1, rfl, hact 0, rfl, ?_⟩
  rw [FuncIsActiveTask_eq_false_iff]
  obtain ⟨t, htt, hfun⟩ := Option.map_eq_some'.mp ht
  have := countP_eraseIdx_add_one (fun t => t.func == .Task_DuckBGMForPokemonCry)
    s.tasks taskId t htt (by simp [hfun])
  simp only [DestroyTask, emit]
  omega

/-- Witness for C2: the ducking request of `PlayCry_Normal` on the start-up
state, followed by three ticks in the sample environment. -/
theorem C2_ducking_restores_on_third_tick_witness :
    (PlayCry_Normal sampleConsts sampleEnv 1 0 initState).gPokemonCryBGMDuckingCounter = 2 ∧
    ((PlayCry_Normal sampleConsts sampleEnv 1 0 initState).tasks[0]?).map Task.func
      = some .Task_DuckBGMForPokemonCry ∧
    (PlayCry_Normal sampleConsts sampleEnv 1 0 initState).tasks.countP
      (fun t => t.func == .Task_DuckBGMForPokemonCry) = 1 ∧
    sampleEnv.IsPokemonCryPlaying
      (PlayCry_Normal sampleConsts sampleEnv 1 0 initState).gMPlay_PokemonCry = false ∧
    (Task_DuckBGMForPokemonCry sampleConsts sampleEnv 0
      (Task_DuckBGMForPokemonCry sampleConsts sampleEnv 0
        (Task_DuckBGMForPokemonCry sampleConsts sampleEnv 0
          (PlayCry_Normal sampleConsts sampleEnv 1 0 initState)))).calls
      = (PlayCry_Normal sampleConsts sampleEnv 1 0 initState).calls ++
          [.m4aMPlayVolumeControl .gMPlayInfo_BGM sampleConsts.TRACKS_ALL 256] ∧
    FuncIsActiveTask .Task_DuckBGMForPokemonCry
      (Task_DuckBGMForPokemonCry sampleConsts sampleEnv 0
        (Task_DuckBGMForPokemonCry sampleConsts sampleEnv 0
          (Task_DuckBGMForPokemonCry sampleConsts sampleEnv 0
            (PlayCry_Normal sampleConsts sampleEnv 1 0 initState)))) = false :=
  ⟨by decide, by decide, by decide, by decide,
    (C2_ducking_restores_on_third_tick sampleConsts sampleEnv sampleEnv sampleEnv 0
      (PlayCry_Normal sampleConsts sampleEnv 1 0 initState)
      (by decide) (by decide) (by decide) (by decide)).2.2.2.2⟩

/-- C2 fails as stated: after the ducking request of `PlayCry_Normal` on the
start-up state (counter `2`, ducking task registered), two ticks of the
ducking task with the cry not playing make no engine call, so the BGM volume
is not restored, and leave the task registered with the counter at `0`. -/
theorem C2_counterexample :
    (PlayCry_Normal sampleConsts sampleEnv 1 0 initState).gPokemonCryBGMDuckingCounter = 2 ∧
    FuncIsActiveTask .Task_DuckBGMForPokemonCry
      (PlayCry_Normal sampleConsts sampleEnv 1 0 initState) = true ∧
    sampleEnv.IsPokemonCryPlaying
      (PlayCry_Normal sampleConsts sampleEnv 1 0 initState).gMPlay_PokemonCry = false ∧
    (Task_DuckBGMForPokemonCry sampleConsts sampleEnv 0
      (Task_DuckBGMForPokemonCry sampleConsts sampleEnv 0
        (PlayCry_Normal sampleConsts sampleEnv 1 0 initState))).calls
      = (PlayCry_Normal sampleConsts sampleEnv 1 0 initState).calls ∧
    FuncIsActiveTask .Task_DuckBGMForPokemonCry
      (Task_DuckBGMForPokemonCry sampleConsts sampleEnv 0
        (Task_DuckBGMForPokemonCry sampleConsts sampleEnv 0
          (PlayCry_Normal sampleConsts sampleEnv 1 0 initState))) = true ∧
    (Task_DuckBGMForPokemonCry sampleConsts sampleEnv 0
      (Task_DuckBGMForPokemonCry sampleConsts sampleEnv 0
        (PlayCry_Normal sampleConsts sampleEnv 1 0 initState))).gPokemonCryBGMDuckingCounter
      = 0 := by
  decide

/-- A `MapMusicMain` tick in state `6` changes nothing while the fanfare task is
registered. -/
theorem MapMusicMain_state6_fanfare (c : Consts) (e : Env) (t : State)
    (h6 : t.sMapMusicState = 6) (hf : FuncIsActiveTask .Task_Fanfare t = true) :
    MapMusicMain c e t = t := by
  unfold MapMusicMain
  rw [h6]
  simp only [IsBGMStopped, IsFanfareTaskInactive, hf]
  split <;> simp

/-- C3: once a fanfare task is registered and `FadeOutAndPlayNewMapMusic(Y,
speed)` has been called, the state is `6` with current `0` and pending `Y`,
and any number of `MapMusicMain` ticks, under any backend status (so also with
the BGM reported stopped), leave the whole state as it is, which includes the
list of engine calls: no song is started.  More generally every tick taken in
state `6` while the fanfare task is registered changes nothing. -/
theorem C3_fanfare_blocks_map_switch (c : Consts) (Y speed : Nat) (s : State)
    (envs : List Env) (hf : FuncIsActiveTask .Task_Fanfare s = true) :
    (FadeOutAndPlayNewMapMusic Y speed s).sMapMusicState = 6 ∧
      (FadeOutAndPlayNewMapMusic Y speed s).sCurrentMapMusic = 0 ∧
      (FadeOutAndPlayNewMapMusic Y speed s).sNextMapMusic = Y ∧
      FuncIsActiveTask .Task_Fanfare (FadeOutAndPlayNewMapMusic Y speed s) = true ∧
      envs.foldl (fun t e => MapMusicMain c e t) (FadeOutAndPlayNewMapMusic Y speed s)
        = FadeOutAndPlayNewMapMusic Y speed s ∧
      ∀ (t : State) (e : Env), t.sMapMusicState = 6 →
        FuncIsActiveTask .Task_Fanfare t = true →
          MapMusicMain c e t = t ∧ (MapMusicMain c e t).calls = t.calls := by
  have hreg : FuncIsActiveTask .Task_Fanfare (FadeOutAndPlayNewMapMusic Y speed s) = true := by
    have htasks : (FadeOutAndPlayNewMapMusic Y speed s).tasks = s.tasks := by
      simp only [FadeOutAndPlayNewMapMusic, FadeOutMapMusic, IsNotWaitingForBGMStop,
        FadeOutBGM, emit]
      split_ifs <;> rfl
    simpa [FuncIsActiveTask, htasks] using hf
  refine ⟨rfl, rfl, rfl, hreg, ?_, ?_⟩
  · induction envs with
    | nil => rfl
    | cons e es ih =>
      rw [List.foldl_cons, MapMusicMain_state6_fanfare c e _ rfl hreg]
      exact ih
  · intro t e h6 ht
    rw [MapMusicMain_state6_fanfare c e t h6 ht]
    exact ⟨rfl, rfl⟩

/-- Witness for C3: a fanfare started with `PlayFanfare` on the start-up state,
then a fade-out to song `300`, then two ticks with the BGM stopped. -/
theorem C3_fanfare_blocks_map_switch_witness :
    FuncIsActiveTask .Task_Fanfare
      ((PlayFanfare sampleConsts sampleEnv 256 initState).getD initState) = true ∧
    [sampleEnv, sampleEnv].foldl (fun t e => MapMusicMain sampleConsts e t)
      (FadeOutAndPlayNewMapMusic 300 4
        ((PlayFanfare sampleConsts sampleEnv 256 initState).getD initState))
      = FadeOutAndPlayNewMapMusic 300 4
        ((PlayFanfare sampleConsts sampleEnv 256 initState).getD initState) :=
  ⟨by decide,
    (C3_fanfare_blocks_map_switch sampleConsts 300 4
      ((PlayFanfare sampleConsts sampleEnv 256 initState).getD initState)
      [sampleEnv, sampleEnv] (by decide)).2.2.2.2.1⟩

/-- C4: for every song `X` and every prior state, `PlayNewMapMusic(X)` makes
no engine call, and one `MapMusicMain` tick after it yields
`GetCurrentMapMusic() = X`, state `2` (Playing) and pending `0`; the only
engine call of the two steps is the `m4aSongNumStart` of the tick. -/
theorem C4_play_new_map_music_round_trip (c : Consts) (e : Env) (X : Nat) (s : State) :
    (PlayNewMapMusic X s).calls = s.calls ∧
      (GetCurrentMapMusic (MapMusicMain c e (PlayNewMapMusic X s))).1 = X ∧
      (MapMusicMain c e (PlayNewMapMusic X s)).sMapMusicState = 2 ∧
      (MapMusicMain c e (PlayNewMapMusic X s)).sNextMapMusic = 0 ∧
      (MapMusicMain c e (PlayNewMapMusic X s)).calls =
        s.calls ++ [.m4aSongNumStart (RegionalMusicHandler c e X)] := by
  simp [PlayNewMapMusic, MapMusicMain, GetCurrentMapMusic, PlayBGM, emit]

/-- The engine calls of `PlayCryInternal`, in terms of the locals after the
`switch`. -/
theorem PlayCryInternal_calls (c : Consts) (e : Env) (species : Nat) (pan volume : Int)
    (priority mode : Nat) (s : State) :
    (PlayCryInternal c e species pan volume priority mode s).calls =
      s.calls ++ cryCalls (c.GetCryIdBySpecies species) pan
        (PlayCryInternal.switch mode ⟨false, 0, 210, 15360, 0, volume⟩).volume priority
        (PlayCryInternal.switch mode ⟨false, 0, 210, 15360, 0, volume⟩).length
        (PlayCryInternal.switch mode ⟨false, 0, 210, 15360, 0, volume⟩).release
        (PlayCryInternal.switch mode ⟨false, 0, 210, 15360, 0, volume⟩).pitch
        (PlayCryInternal.switch mode ⟨false, 0, 210, 15360, 0, volume⟩).chorus
        (PlayCryInternal.switch mode ⟨false, 0, 210, 15360, 0, volume⟩).reverse := by
  unfold PlayCryInternal
  dsimp only
  generalize PlayCryInternal.switch mode ⟨false, 0, 210, 15360, 0, volume⟩ = l
  by_cases h : c.GetCryIdBySpecies species = CRY_NONE
  · simp [cryCalls, emit, h]
  · simp [cryCalls, emit, h]

/-- C5: for each of the 13 cry modes `PlayCryInternal` issues exactly the
eight cry setters with the (length, release, pitch, chorus) of the table, the
volume `90` for Encounter, HighPitch, EchoStart and EchoEnd and the caller's
volume otherwise, pan and priority as given, and then, for a species with a
cry, the tone selection by the mode's reverse flag (set for EchoStart and
Growl1 only). -/
theorem C5_cry_parameter_table (c : Consts) (e : Env) (species : Nat) (pan volume : Int)
    (priority : Nat) (s : State) :
    (PlayCryInternal c e species pan volume priority CRY_MODE_NORMAL s).calls =
        s.calls ++ cryCalls (c.GetCryIdBySpecies species) pan volume priority
          210 0 15360 0 false ∧
      (PlayCryInternal c e species pan volume priority CRY_MODE_DOUBLES s).calls =
        s.calls ++ cryCalls (c.GetCryIdBySpecies species) pan volume priority
          20 225 15360 0 false ∧
      (PlayCryInternal c e species pan volume priority CRY_MODE_ENCOUNTER s).calls =
        s.calls ++ cryCalls (c.GetCryIdBySpecies species) pan 90 priority
          210 225 15600 20 false ∧
      (PlayCryInternal c e species pan volume priority CRY_MODE_HIGH_PITCH s).calls =
        s.calls ++ cryCalls (c.GetCryIdBySpecies species) pan 90 priority
          50 200 15800 20 false ∧
      (PlayCryInternal c e species pan volume priority CRY_MODE_ECHO_START s).calls =
        s.calls ++ cryCalls (c.GetCryIdBySpecies species) pan 90 priority
          25 100 15600 192 true ∧
      (PlayCryInternal c e species pan volume priority CRY_MODE_FAINT s).calls =
        s.calls ++ cryCalls (c.GetCryIdBySpecies species) pan volume priority
          210 200 14440 0 false ∧
      (PlayCryInternal c e species pan volume priority CRY_MODE_ECHO_END s).calls =
        s.calls ++ cryCalls (c.GetCryIdBySpecies species) pan 90 priority
          210 220 15555 192 false ∧
      (PlayCryInternal c e species pan volume priority CRY_MODE_ROAR_1 s).calls =
        s.calls ++ cryCalls (c.GetCryIdBySpecies species) pan volume priority
          10 100 14848 0 false ∧
      (PlayCryInternal c e species pan volume priority CRY_MODE_ROAR_2 s).calls =
        s.calls ++ cryCalls (c.GetCryIdBySpecies species) pan volume priority
          60 225 15616 0 false ∧
      (PlayCryInternal c e species pan volume priority CRY_MODE_GROWL_1 s).calls =
        s.calls ++ cryCalls (c.GetCryIdBySpecies species) pan volume priority
          15 125 15200 0 true ∧
      (PlayCryInternal c e species pan volume priority CRY_MODE_GROWL_2 s).calls =
        s.calls ++ cryCalls (c.GetCryIdBySpecies species) pan volume priority
          100 225 15200 0 false ∧
      (PlayCryInternal c e species pan volume priority CRY_MODE_WEAK s).calls =
        s.calls ++ cryCalls (c.GetCryIdBySpecies species) pan volume priority
          210 0 15000 0 false ∧
      (PlayCryInternal c e species pan volume priority CRY_MODE_WEAK_DOUBLES s).calls =
        s.calls ++ cryCalls (c.GetCryIdBySpecies species) pan volume priority
          20 225 15000 0 false := by
  simp only [PlayCryInternal_calls]
  refine ⟨rfl, rfl, rfl, rfl, rfl, rfl, rfl, rfl, rfl, rfl, rfl, rfl, rfl⟩

/-- `PlayFanfareByFanfareNum(0)` always succeeds and leaves the tasks alone. -/
theorem PlayFanfareByFanfareNum_zero (c : Consts) (e : Env) (s : State) :
    ∃ s0, PlayFanfareByFanfareNum c e 0 s = some s0 ∧ s0.tasks = s.tasks := by
  unfold PlayFanfareByFanfareNum
  by_cases hq : e.gQuestLogState = c.QL_STATE_PLAYBACK
  · exact ⟨{ s with sFanfareCounter := 0xFF }, by simp only [hq, if_true], rfl⟩
  · exact ⟨emit (.m4aSongNumStart (RegionalMusicHandler c e (c.song .MUS_LEVEL_UP)))
      { emit (.m4aMPlayStop .gMPlayInfo_BGM) s with
        sFanfareCounter := RegionalMusicHandler c e 80 }, by simp only [hq, if_false]; rfl, rfl⟩

/-- When no entry from index `i` on has the requested song, the loop of
`PlayFanfare` runs out and the fallback to entry `0` is taken. -/
theorem PlayFanfare_loop_miss (c : Consts) (e : Env) (songNum : Nat) (s : State) :
    ∀ (n i : Nat), i + n = (sFanfares c).length →
      (∀ j fanfare, i ≤ j → (sFanfares c)[j]? = some fanfare → fanfare.songNum ≠ songNum) →
      PlayFanfare.loop c e songNum s n i =
        (PlayFanfareByFanfareNum c e 0 s).map CreateFanfareTask := by
  intro n
  induction n with
  | zero => intro i _ _; rfl
  | succ n ih =>
    intro i hlen hmiss
    have hi : i < (sFanfares c).length := by omega
    have hne := hmiss i _ (Nat.le_refl i) (List.getElem?_eq_getElem hi)
    rw [PlayFanfare.loop, List.getElem?_eq_getElem hi]
    simp only [hne, if_false]
    exact ih (i + 1) (by omega) (fun j f hj hf => hmiss j f (by omega) hf)

/-- C6 (as amended): for every song id that is not the `songNum` of any fanfare
table entry, `PlayFanfare(songId)` succeeds and does what
`PlayFanfareByFanfareNum(0)` does (same engine calls, same countdown, same
other variables), and in addition registers the fanfare task when it is not
registered yet; the two reach the same state when the task was registered
before. -/
theorem C6_unknown_song_falls_back_to_first (c : Consts) (e : Env) (songNum : Nat)
    (s : State) (h : ∀ fanfare ∈ sFanfares c, fanfare.songNum ≠ songNum) :
    ∃ s0, PlayFanfareByFanfareNum c e 0 s = some s0 ∧
      PlayFanfare c e songNum s =
        some { s0 with
          tasks := if FuncIsActiveTask .Task_Fanfare s = true then s0.tasks
                   else s0.tasks ++ [⟨.Task_Fanfare, 80⟩] } := by
  obtain ⟨s0, hs0, htasks⟩ := PlayFanfareByFanfareNum_zero c e s
  refine ⟨s0, hs0, ?_⟩
  rw [PlayFanfare, PlayFanfare_loop_miss c e songNum s _ 0 (by simp)
    (fun j f _ hf => h f (List.getElem?_mem hf)), hs0]
  have hact : FuncIsActiveTask .Task_Fanfare s0 = FuncIsActiveTask .Task_Fanfare s := by
    simp [FuncIsActiveTask, htasks]
  simp only [Option.map_some', CreateFanfareTask, CreateTask, hact]
  by_cases hf : FuncIsActiveTask .Task_Fanfare s = true <;> simp [hf]

/-- Witness for C6: song id `9999` on the start-up state. -/
theorem C6_unknown_song_falls_back_to_first_witness :
    (∀ fanfare ∈ sFanfares sampleConsts, fanfare.songNum ≠ 9999) ∧
    ∃ s0, PlayFanfareByFanfareNum sampleConsts sampleEnv 0 initState = some s0 ∧
      PlayFanfare sampleConsts sampleEnv 9999 initState =
        some { s0 with
          tasks := if FuncIsActiveTask .Task_Fanfare initState = true then s0.tasks
                   else s0.tasks ++ [⟨.Task_Fanfare, 80⟩] } :=
  ⟨by decide,
    C6_unknown_song_falls_back_to_first sampleConsts sampleEnv 9999 initState (by decide)⟩

/-- C6 fails as stated: `9999` is no song of the sample fanfare table, and on
the start-up state `PlayFanfare(9999)` ends with the fanfare task registered
while `PlayFanfareByFanfareNum(0)` ends with no task registered. -/
theorem C6_counterexample :
    (∀ fanfare ∈ sFanfares sampleConsts, fanfare.songNum ≠ 9999) ∧
    (PlayFanfare sampleConsts sampleEnv 9999 initState).map State.tasks
      = some [⟨.Task_Fanfare, 80⟩] ∧
    (PlayFanfareByFanfareNum sampleConsts sampleEnv 0 initState).map State.tasks = some [] ∧
    PlayFanfare sampleConsts sampleEnv 9999 initState ≠
      PlayFanfareByFanfareNum sampleConsts sampleEnv 0 initState := by
  decide

/-- A song number that is no `case` label of `HGSSMusicHandler` takes the
`default` branch. -/
theorem HGSSMusicHandler_default (c : Consts) (songNum : Nat)
    (h : songNum ∉ (hgssCases c).map Prod.fst) : HGSSMusicHandler c songNum = songNum := by
  have hnone : (hgssCases c).lookup songNum = none := by
    rw [List.lookup_eq_none_iff]
    intro p hp
    simp only [bne_iff_ne, ne_eq]
    intro heq
    exact h (List.mem_map.mpr ⟨p, hp, heq.symm⟩)
  simp [HGSSMusicHandler, hnone]

/-- C7: with the region option set to HGSS, `RegionalMusicHandler(MUS_HEAL)` is
`MUS_HG_HEAL` and every song id that is no key of the HGSS table is returned
unchanged; with the region option set to FireRed every song id is returned
unchanged. -/
theorem C7_region_remap (c : Consts) (e : Env)
    (hopt : c.OPTIONS_MUSIC_FIRERED ≠ c.OPTIONS_MUSIC_HGSS) :
    RegionalMusicHandler c { e with optionsMusicSet := c.OPTIONS_MUSIC_HGSS }
        (c.song .MUS_HEAL) = c.song .MUS_HG_HEAL ∧
      (∀ songNum, songNum ∉ (hgssCases c).map Prod.fst →
        RegionalMusicHandler c { e with optionsMusicSet := c.OPTIONS_MUSIC_HGSS } songNum
          = songNum) ∧
      ∀ songNum,
        RegionalMusicHandler c { e with optionsMusicSet := c.OPTIONS_MUSIC_FIRERED } songNum
          = songNum := by
  refine ⟨?_, ?_, ?_⟩
  · simp only [RegionalMusicHandler, if_true, HGSSMusicHandler, hgssCases,
      List.lookup_cons_self]
  · intro songNum hkey
    simp only [RegionalMusicHandler, if_true]
    exact HGSSMusicHandler_default c songNum hkey
  · intro songNum
    simp only [RegionalMusicHandler, hopt, if_false, FireRedMusicHandler]

/-- Witness for C7: the sample constants, with `9999` as a song id that is no
key of the HGSS table. -/
theorem C7_region_remap_witness :
    sampleConsts.OPTIONS_MUSIC_FIRERED ≠ sampleConsts.OPTIONS_MUSIC_HGSS ∧
    RegionalMusicHandler sampleConsts sampleEnvHGSS (sampleConsts.song .MUS_HEAL)
      = sampleConsts.song .MUS_HG_HEAL ∧
    RegionalMusicHandler sampleConsts sampleEnvHGSS 9999 = 9999 ∧
    RegionalMusicHandler sampleConsts sampleEnv (sampleConsts.song .MUS_HEAL)
      = sampleConsts.song .MUS_HEAL :=
  ⟨by decide,
    (C7_region_remap sampleConsts sampleEnv (by decide)).1,
    (C7_region_remap sampleConsts sampleEnv (by decide)).2.1 9999 (by decide),
    (C7_region_remap sampleConsts sampleEnv (by decide)).2.2 _⟩

/-- C8: `IsNotWaitingForBGMStop` leaves the whole state as it is (so current,
pending, state, fade-in speed and the list of engine calls are unchanged), it
returns FALSE exactly when the state is `5`, `6` or `7`, and a second call
right after the first returns the same result. -/
theorem C8_isNotWaitingForBGMStop_pure (s : State) :
    (IsNotWaitingForBGMStop s).2 = s ∧
      ((IsNotWaitingForBGMStop s).1 = false ↔
        s.sMapMusicState = 5 ∨ s.sMapMusicState = 6 ∨ s.sMapMusicState = 7) ∧
      ((IsNotWaitingForBGMStop s).1 = true ↔
        ¬ (s.sMapMusicState = 5 ∨ s.sMapMusicState = 6 ∨ s.sMapMusicState = 7)) ∧
      (IsNotWaitingForBGMStop (IsNotWaitingForBGMStop s).2).1 = (IsNotWaitingForBGMStop s).1 := by
  unfold IsNotWaitingForBGMStop
  by_cases h6 : s.sMapMusicState = 6
  · simp [h6]
  · by_cases h5 : s.sMapMusicState = 5
    · simp [h5]
    · by_cases h7 : s.sMapMusicState = 7
      · simp [h7]
      · simp [h5, h6, h7]

/-- C9: from every prior state `FadeOutMapMusic(speed)` ends with current `0`,
pending `0` and state `5`, changes no other variable, and issues exactly one
engine call, the fade-out of the BGM player at `speed`, when the prior state
is none of `5`, `6`, `7`, and no engine call at all when it is one of them. -/
theorem C9_fadeOutMapMusic (speed : Nat) (s : State) :
    FadeOutMapMusic speed s =
      { s with
        sCurrentMapMusic := 0
        sNextMapMusic := 0
        sMapMusicState := 5
        calls :=
          if s.sMapMusicState = 5 ∨ s.sMapMusicState = 6 ∨ s.sMapMusicState = 7 then s.calls
          else s.calls ++ [.m4aMPlayFadeOut .gMPlayInfo_BGM speed] } := by
  unfold FadeOutMapMusic IsNotWaitingForBGMStop
  by_cases h6 : s.sMapMusicState = 6
  · simp [h6]
  · by_cases h5 : s.sMapMusicState = 5
    · simp [h5]
    · by_cases h7 : s.sMapMusicState = 7
      · simp [h7]
      · simp [h5, h6, h7, FadeOutBGM, emit]

/-- C10 (as amended): for a species without a cry (`GetCryIdBySpecies` returns
`CRY_NONE`) and every pan, volume, priority and mode, `PlayCryInternal`
selects no tone and leaves `gMPlay_PokemonCry` and every other variable
unchanged, but it does push the eight cry settings (volume, panpot, pitch,
length, progress, release, chorus, priority) to the engine: these eight
setter calls are its whole effect. -/
theorem C10_no_cry_pushes_settings_only (c : Consts) (e : Env) (species : Nat)
    (pan volume : Int) (priority mode : Nat) (s : State)
    (h : c.GetCryIdBySpecies species = CRY_NONE) :
    (PlayCryInternal c e species pan volume priority mode s).gMPlay_PokemonCry
        = s.gMPlay_PokemonCry ∧
      ∃ vol pitch length release chorus,
        PlayCryInternal c e species pan volume priority mode s =
          { s with calls := s.calls ++
              [.SetPokemonCryVolume vol, .SetPokemonCryPanpot pan, .SetPokemonCryPitch pitch,
                .SetPokemonCryLength length, .SetPokemonCryProgress 0,
                .SetPokemonCryRelease release, .SetPokemonCryChorus chorus,
                .SetPokemonCryPriority priority] } := by
  unfold PlayCryInternal
  dsimp only
  generalize PlayCryInternal.switch mode ⟨false, 0, 210, 15360, 0, volume⟩ = l
  rw [if_neg (by simp [h])]
  exact ⟨by simp [emit], l.volume, l.pitch, l.length, l.release, l.chorus, by simp [emit]⟩

/-- Witness for C10: species `0` of the sample constants, in mode Growl1. -/
theorem C10_no_cry_pushes_settings_only_witness :
    sampleConsts.GetCryIdBySpecies 0 = CRY_NONE ∧
    (PlayCryInternal sampleConsts sampleEnv 0 5 100 10 CRY_MODE_GROWL_1 initState).gMPlay_PokemonCry
      = initState.gMPlay_PokemonCry :=
  ⟨by decide,
    (C10_no_cry_pushes_settings_only sampleConsts sampleEnv 0 5 100 10 CRY_MODE_GROWL_1
      initState (by decide)).1⟩

/-- C10 fails as stated: species `0` of the sample constants has no cry, and
`PlayCryInternal` for it on the start-up state still issues the eight cry
setter calls, so the engine's cry settings are changed. -/
theorem C10_counterexample :
    sampleConsts.GetCryIdBySpecies 0 = CRY_NONE ∧
    (PlayCryInternal sampleConsts sampleEnv 0 5 100 10 CRY_MODE_NORMAL initState).calls =
      [.SetPokemonCryVolume 100, .SetPokemonCryPanpot 5, .SetPokemonCryPitch 15360,
        .SetPokemonCryLength 210, .SetPokemonCryProgress 0, .SetPokemonCryRelease 0,
        .SetPokemonCryChorus 0, .SetPokemonCryPriority 10] ∧
    PlayCryInternal sampleConsts sampleEnv 0 5 100 10 CRY_MODE_NORMAL initState ≠ initState := by
  decide

/-- C11 fails on the code: with the HGSS option of the sample constants the
remapper sends `MUS_HEAL` (`260`) to `MUS_HG_HEAL` (`272`), and `PlayBGM` and
`PlaySE` start `272`; but `FadeInNewBGM`, also as run by the `MapMusicMain`
tick of state `7`, and the three SE-with-panning functions start `260`, the
id as requested. -/
theorem C11_fadeIn_and_panning_start_unmapped_id :
    sampleConsts.song .MUS_HEAL = 260 ∧ sampleConsts.song .MUS_HG_HEAL = 272 ∧
    RegionalMusicHandler sampleConsts sampleEnvHGSS 260 = 272 ∧
    (PlayBGM sampleConsts sampleEnvHGSS 260 initState).calls = [.m4aSongNumStart 272] ∧
    (PlaySE sampleConsts sampleEnvHGSS 260 initState).calls = [.m4aSongNumStart 272] ∧
    (MapMusicMain sampleConsts sampleEnvHGSS
        (FadeOutAndPlayNewMapMusic 260 4 initState)).calls =
      [.m4aMPlayFadeOut .gMPlayInfo_BGM 4, .m4aSongNumStart 272] ∧
    (MapMusicMain sampleConsts sampleEnvHGSS
        (FadeOutAndFadeInNewMapMusic 260 4 6 initState)).calls =
      [.m4aMPlayFadeOut .gMPlayInfo_BGM 4, .m4aSongNumStart 260,
        .m4aMPlayImmInit .gMPlayInfo_BGM, .m4aMPlayVolumeControl .gMPlayInfo_BGM 65535 0,
        .m4aSongNumStop 260, .m4aMPlayFadeIn .gMPlayInfo_BGM 6] ∧
    (PlaySE12WithPanning sampleConsts 260 0 initState).calls =
      [.m4aSongNumStart 260, .m4aMPlayImmInit .gMPlayInfo_SE1,
        .m4aMPlayImmInit .gMPlayInfo_SE2, .m4aMPlayPanpotControl .gMPlayInfo_SE1 65535 0,
        .m4aMPlayPanpotControl .gMPlayInfo_SE2 65535 0] ∧
    (PlaySE1WithPanning sampleConsts 260 0 initState).calls =
      [.m4aSongNumStart 260, .m4aMPlayImmInit .gMPlayInfo_SE1,
        .m4aMPlayPanpotControl .gMPlayInfo_SE1 65535 0] ∧
    (PlaySE2WithPanning sampleConsts 260 0 initState).calls =
      [.m4aSongNumStart 260, .m4aMPlayImmInit .gMPlayInfo_SE2,
        .m4aMPlayPanpotControl .gMPlayInfo_SE2 65535 0] := by
  decide

/-- `PlayFanfareByFanfareNum` succeeds for every index inside the table and
leaves the tasks alone. -/
theorem PlayFanfareByFanfareNum_of_lt (c : Consts) (e : Env) (j : Nat) (s : State)
    (hj : j < (sFanfares c).length) :
    ∃ s1, PlayFanfareByFanfareNum c e j s = some s1 ∧ s1.tasks = s.tasks ∧
      (e.gQuestLogState ≠ c.QL_STATE_PLAYBACK →
        ∀ f, (sFanfares c)[j]? = some f →
          s1.calls = s.calls ++
            [.m4aMPlayStop .gMPlayInfo_BGM,
              .m4aSongNumStart (RegionalMusicHandler c e f.songNum)]) := by
  unfold PlayFanfareByFanfareNum
  by_cases hq : e.gQuestLogState = c.QL_STATE_PLAYBACK
  · exact ⟨{ s with sFanfareCounter := 0xFF }, by simp only [hq, if_true], rfl,
      fun hne => absurd hq hne⟩
  · refine ⟨emit (.m4aSongNumStart (RegionalMusicHandler c e (sFanfares c)[j].songNum))
      { emit (.m4aMPlayStop .gMPlayInfo_BGM) s with
        sFanfareCounter := RegionalMusicHandler c e (sFanfares c)[j].duration },
      by simp only [hq, if_false, List.getElem?_eq_getElem hj], rfl, ?_⟩
    intro _ f hf
    rw [List.getElem?_eq_getElem hj] at hf
    cases hf
    simp [emit]

/-- The loop of `PlayFanfare`, started at index `i` with no match below `i`,
reads the table inside its bounds only and ends in one call
`PlayFanfareByFanfareNum(j)` followed by `CreateFanfareTask()`, where `j` is
the first matching index, or `0` when no entry matches. -/
theorem PlayFanfare_loop_spec (c : Consts) (e : Env) (songNum : Nat) (s : State) :
    ∀ (n i : Nat), i + n = (sFanfares c).length →
      (∀ k g, k < i → (sFanfares c)[k]? = some g → g.songNum ≠ songNum) →
      ∃ j, j < (sFanfares c).length ∧
        PlayFanfare.loop c e songNum s n i =
          (PlayFanfareByFanfareNum c e j s).map CreateFanfareTask ∧
        ((∃ f, (sFanfares c)[j]? = some f ∧ f.songNum = songNum ∧
            ∀ k g, k < j → (sFanfares c)[k]? = some g → g.songNum ≠ songNum) ∨
          (j = 0 ∧ ∀ g ∈ sFanfares c, g.songNum ≠ songNum)) := by
  intro n
  induction n with
  | zero =>
    intro i hlen hbelow
    refine ⟨0, by simp [sFanfares], rfl, Or.inr ⟨rfl, ?_⟩⟩
    intro g hg
    obtain ⟨k, hk⟩ := List.mem_iff_getElem?.mp hg
    have hklt : k < (sFanfares c).length := by
      by_contra hge
      rw [List.getElem?_eq_none (by omega)] at hk
      exact Option.noConfusion hk
    exact hbelow k g (by omega) hk
  | succ n ih =>
    intro i hlen hbelow
    have hi : i < (sFanfares c).length := by omega
    rw [PlayFanfare.loop, List.getElem?_eq_getElem hi]
    by_cases hm : (sFanfares c)[i].songNum = songNum
    · simp only [hm, if_true]
      exact ⟨i, hi, rfl, Or.inl ⟨_, List.getElem?_eq_getElem hi, hm, hbelow⟩⟩
    · simp only [hm, if_false]
      refine ih (i + 1) (by omega) ?_
      intro k g hk hg
      by_cases hki : k = i
      · subst hki
        rw [List.getElem?_eq_getElem hi] at hg
        cases hg
        exact hm
      · exact hbelow k g (by omega) hg

/-- `PlayFanfare` always succeeds, and what it leaves is the result of
`CreateFanfareTask` on a state with the tasks it started with. -/
theorem PlayFanfare_tasks (c : Consts) (e : Env) (songNum : Nat) (s : State) :
    ∃ s1, PlayFanfare c e songNum s = some (CreateFanfareTask s1) ∧ s1.tasks = s.tasks := by
  obtain ⟨j, hj, hloop, _⟩ :=
    PlayFanfare_loop_spec c e songNum s (sFanfares c).length 0 (by simp)
      (fun k g hk _ => absurd hk (Nat.not_lt_zero k))
  obtain ⟨s1, hs1, htasks, _⟩ := PlayFanfareByFanfareNum_of_lt c e j s hj
  exact ⟨s1, by rw [PlayFanfare, hloop, hs1]; rfl, htasks⟩

/-- `CreateFanfareTask` keeps the number of fanfare tasks at most one. -/
theorem fanfareTaskCount_CreateFanfareTask (s : State) (h : fanfareTaskCount s ≤ 1) :
    fanfareTaskCount (CreateFanfareTask s) ≤ 1 := by
  unfold CreateFanfareTask
  by_cases hact : FuncIsActiveTask .Task_Fanfare s = true
  · simpa [hact] using h
  · have hzero : s.tasks.countP (fun t => t.func == .Task_Fanfare) = 0 :=
      (FuncIsActiveTask_eq_false_iff .Task_Fanfare s).mp (by simpa using hact)
    rw [if_pos hact]
    simp only [CreateTask, fanfareTaskCount, List.countP_append, hzero]
    decide

/-- A tick of `Task_Fanfare` never raises the number of fanfare tasks. -/
theorem fanfareTaskCount_Task_Fanfare (e : Env) (taskId : Nat) (s : State) :
    fanfareTaskCount (Task_Fanfare e taskId s) ≤ fanfareTaskCount s := by
  have herase : (s.tasks.eraseIdx taskId).countP (fun t => t.func == .Task_Fanfare)
      ≤ s.tasks.countP (fun t => t.func == .Task_Fanfare) :=
    (List.eraseIdx_sublist s.tasks taskId).countP_le _
  unfold Task_Fanfare fanfareTaskCount
  split_ifs
  · exact herase
  · exact Nat.le_refl _
  · exact herase

/-- Every sequence of fanfare events runs through, and keeps the number of
fanfare tasks at most one. -/
theorem runFanfareEvents_count (c : Consts) (events : List FanfareEvent) :
    ∀ s0 : State, fanfareTaskCount s0 ≤ 1 →
      ∃ s, runFanfareEvents c events s0 = some s ∧ fanfareTaskCount s ≤ 1 := by
  induction events with
  | nil => intro s0 h0; exact ⟨s0, rfl, h0⟩
  | cons ev evs ih =>
    intro s0 h0
    cases ev with
    | PlayFanfare e songNum =>
      obtain ⟨s1, hs1, htasks⟩ := PlayFanfare_tasks c e songNum s0
      have hcount : fanfareTaskCount s1 ≤ 1 := by
        simpa [fanfareTaskCount, htasks] using h0
      obtain ⟨s, hs, hle⟩ := ih _ (fanfareTaskCount_CreateFanfareTask s1 hcount)
      exact ⟨s, by simp only [runFanfareEvents, FanfareEvent.run, hs1, hs], hle⟩
    | Task_Fanfare e taskId =>
      obtain ⟨s, hs, hle⟩ := ih (Task_Fanfare e taskId s0)
        (Nat.le_trans (fanfareTaskCount_Task_Fanfare e taskId s0) h0)
      exact ⟨s, by simp only [runFanfareEvents, FanfareEvent.run, hs], hle⟩

/-- C12: starting with no fanfare task registered, every interleaving of
`PlayFanfare` calls (with any song ids) and `Task_Fanfare` ticks, in any
environments, runs through and ends in a state in which the number of
registered `Task_Fanfare` instances is `0` or `1`, and in which
`IsFanfareTaskInactive` returns TRUE exactly when that number is `0`. -/
theorem C12_at_most_one_fanfare_task (c : Consts) (events : List FanfareEvent)
    (s0 : State) (h0 : fanfareTaskCount s0 = 0) :
    ∃ s, runFanfareEvents c events s0 = some s ∧
      (fanfareTaskCount s = 0 ∨ fanfareTaskCount s = 1) ∧
      ((IsFanfareTaskInactive s).1 = true ↔ fanfareTaskCount s = 0) := by
  obtain ⟨s, hs, hle⟩ := runFanfareEvents_count c events s0 (by omega)
  refine ⟨s, hs, by omega, ?_⟩
  unfold IsFanfareTaskInactive fanfareTaskCount
  rw [← FuncIsActiveTask_eq_false_iff]
  by_cases hact : FuncIsActiveTask .Task_Fanfare s = true <;> simp [hact]

/-- Witness for C12: two `PlayFanfare` calls and one tick on the start-up
state. -/
theorem C12_at_most_one_fanfare_task_witness :
    fanfareTaskCount initState = 0 ∧
    ∃ s, runFanfareEvents sampleConsts
        [.PlayFanfare sampleEnv 256, .PlayFanfare sampleEnv 9999, .Task_Fanfare sampleEnv 0]
        initState = some s ∧
      (fanfareTaskCount s = 0 ∨ fanfareTaskCount s = 1) ∧
      ((IsFanfareTaskInactive s).1 = true ↔ fanfareTaskCount s = 0) :=
  ⟨by decide,
    C12_at_most_one_fanfare_task sampleConsts
      [.PlayFanfare sampleEnv 256, .PlayFanfare sampleEnv 9999, .Task_Fanfare sampleEnv 0]
      initState (by decide)⟩

/-- C13 (as amended): in log-playback mode, for every fanfare index,
`PlayFanfareByFanfareNum` makes no engine call and changes nothing but the
countdown, which it sets to `0xFF` (`255`).  That value has not elapsed: the
next `WaitFanfare` call, with either argument, reports not finished, as do the
first `255` calls `WaitFanfare(FALSE)`; call `256` reports finished. -/
theorem C13_playback_sets_countdown_255 (c : Consts) (e : Env) (fanfareNum : Nat)
    (stop : Bool) (s : State) (hq : e.gQuestLogState = c.QL_STATE_PLAYBACK) :
    PlayFanfareByFanfareNum c e fanfareNum s = some { s with sFanfareCounter := 255 } ∧
      WaitFanfare c stop { s with sFanfareCounter := 255 } =
        (false, { s with sFanfareCounter := 254 }) ∧
      (∀ k, k < 255 →
        (WaitFanfare c false
          (WaitFanfareRepeat c k { s with sFanfareCounter := 255 })).1 = false) ∧
      WaitFanfare c false (WaitFanfareRepeat c 255 { s with sFanfareCounter := 255 }) =
        (true, emit (.m4aMPlayContinue .gMPlayInfo_BGM) { s with sFanfareCounter := 0 }) := by
  refine ⟨?_, ?_, ?_, ?_⟩
  · simp only [PlayFanfareByFanfareNum, hq, if_true]
  · simp [WaitFanfare, decU16]
  · intro k hk
    rw [WaitFanfareRepeat_of_le c k _ (Nat.le_of_lt hk)]
    have hne : 255 - k ≠ 0 := by omega
    simp [WaitFanfare, decU16, hne]
  · rw [WaitFanfareRepeat_of_le c 255 _ (Nat.le_refl _)]
    simp [WaitFanfare, decU16, emit]

/-- Witness for C13: fanfare `0` on the start-up state in the sample playback
environment. -/
theorem C13_playback_sets_countdown_255_witness :
    sampleEnvPlayback.gQuestLogState = sampleConsts.QL_STATE_PLAYBACK ∧
    PlayFanfareByFanfareNum sampleConsts sampleEnvPlayback 0 initState =
      some { initState with sFanfareCounter := 255 } ∧
    WaitFanfare sampleConsts false { initState with sFanfareCounter := 255 } =
      (false, { initState with sFanfareCounter := 254 }) :=
  ⟨by decide,
    (C13_playback_sets_countdown_255 sampleConsts sampleEnvPlayback 0 false initState
      (by decide)).1,
    (C13_playback_sets_countdown_255 sampleConsts sampleEnvPlayback 0 false initState
      (by decide)).2.1⟩

/-- C13 fails as stated: in the sample playback environment
`PlayFanfareByFanfareNum(0)` on the start-up state makes no engine call and
sets the countdown to `255`, and the next `WaitFanfare` call, with either
argument, returns FALSE (not finished). -/
theorem C13_counterexample :
    sampleEnvPlayback.gQuestLogState = sampleConsts.QL_STATE_PLAYBACK ∧
    (PlayFanfareByFanfareNum sampleConsts sampleEnvPlayback 0 initState).map
      (fun s1 => (s1.calls, s1.sFanfareCounter, (WaitFanfare sampleConsts false s1).1,
        (WaitFanfare sampleConsts true s1).1))
      = some ([], 255, false, false) := by
  decide

/-- The effect of `FadeInNewBGM` in one step: five engine calls, for song `0`
when music is disabled or the song is `MUS_NONE` and for the given song
otherwise. -/
theorem FadeInNewBGM_eq (c : Consts) (songNum speed : Nat) (s : State) :
    FadeInNewBGM c songNum speed s =
      { s with calls := s.calls ++
          [.m4aSongNumStart (if s.gDisableMusic = true ∨ songNum = c.song .MUS_NONE then 0
              else songNum),
            .m4aMPlayImmInit .gMPlayInfo_BGM,
            .m4aMPlayVolumeControl .gMPlayInfo_BGM c.TRACKS_ALL 0,
            .m4aSongNumStop (if s.gDisableMusic = true ∨ songNum = c.song .MUS_NONE then 0
              else songNum),
            .m4aMPlayFadeIn .gMPlayInfo_BGM speed] } := by
  unfold FadeInNewBGM
  by_cases hd : s.gDisableMusic = true
  · simp [hd, emit]
  · by_cases hn : songNum = c.song .MUS_NONE
    · simp [hd, hn, emit]
    · simp [hd, hn, emit]

/-- A `MapMusicMain` tick in state `5`. -/
theorem MapMusicMain_state5 (c : Consts) (e : Env) (s : State) (h5 : s.sMapMusicState = 5) :
    MapMusicMain c e s =
      if e.bgmStatus &&& c.MUSICPLAYER_STATUS_TRACK = 0 then
        { s with sNextMapMusic := 0, sMapMusicState := 0 }
      else s := by
  unfold MapMusicMain
  rw [h5]
  by_cases hs : e.bgmStatus &&& c.MUSICPLAYER_STATUS_TRACK = 0
  · simp [IsBGMStopped, hs]
  · simp [IsBGMStopped, hs]

/-- A `MapMusicMain` tick in state `6`. -/
theorem MapMusicMain_state6 (c : Consts) (e : Env) (s : State) (h6 : s.sMapMusicState = 6) :
    MapMusicMain c e s =
      if e.bgmStatus &&& c.MUSICPLAYER_STATUS_TRACK = 0 ∧
          FuncIsActiveTask .Task_Fanfare s = false then
        PlayBGM c e s.sNextMapMusic
          { s with sCurrentMapMusic := s.sNextMapMusic, sNextMapMusic := 0, sMapMusicState := 2 }
      else s := by
  unfold MapMusicMain
  rw [h6]
  simp only [IsBGMStopped, IsFanfareTaskInactive]
  by_cases hs : e.bgmStatus &&& c.MUSICPLAYER_STATUS_TRACK = 0
  · by_cases hf : FuncIsActiveTask .Task_Fanfare s = true
    · simp [hs, hf]
    · simp [hs, hf]
  · simp [hs]

/-- A `MapMusicMain` tick in state `7`. -/
theorem MapMusicMain_state7 (c : Consts) (e : Env) (s : State) (h7 : s.sMapMusicState = 7) :
    MapMusicMain c e s =
      if e.bgmStatus &&& c.MUSICPLAYER_STATUS_TRACK = 0 ∧
          FuncIsActiveTask .Task_Fanfare s = false then
        { FadeInNewBGM c s.sNextMapMusic s.sMapMusicFadeInSpeed s with
          sCurrentMapMusic := s.sNextMapMusic, sNextMapMusic := 0, sMapMusicState := 2,
          sMapMusicFadeInSpeed := 0 }
      else s := by
  unfold MapMusicMain
  rw [h7]
  by_cases hs : e.bgmStatus &&& c.MUSICPLAYER_STATUS_TRACK = 0
  · by_cases hf : FuncIsActiveTask .Task_Fanfare s = true
    · simp [hs, hf, IsBGMStopped, IsFanfareTaskInactive]
    · simp [hs, hf, IsBGMStopped, IsFanfareTaskInactive, FadeInNewBGM_eq]
  · simp [hs, IsBGMStopped]

/-- Every map-music operation keeps the map-music invariant. -/
theorem MapMusicInv_run (c : Consts) (op : MapMusicOp) (s : State) (h : MapMusicInv s) :
    MapMusicInv (op.run c s) := by
  obtain ⟨hstate, hnext, hcur⟩ := h
  cases op with
  | PlayNewMapMusic songNum => simp [MapMusicOp.run, PlayNewMapMusic, MapMusicInv]
  | StopMapMusic => simp [MapMusicOp.run, StopMapMusic, MapMusicInv]
  | FadeOutMapMusic speed =>
    simp only [MapMusicOp.run, FadeOutMapMusic, IsNotWaitingForBGMStop, FadeOutBGM, emit]
    split_ifs <;> simp [MapMusicInv]
  | FadeOutAndPlayNewMapMusic songNum speed =>
    simp [MapMusicOp.run, FadeOutAndPlayNewMapMusic, MapMusicInv]
  | FadeOutAndFadeInNewMapMusic songNum fadeOutSpeed fadeInSpeed =>
    simp [MapMusicOp.run, FadeOutAndFadeInNewMapMusic, MapMusicInv]
  | MapMusicMain e =>
    simp only [MapMusicOp.run]
    rcases hstate with h0 | h1 | h2 | h5 | h6 | h7
    · simp [MapMusicMain, h0, MapMusicInv, hnext, h0]
    · have hn : s.sNextMapMusic = 0 := hnext (by omega) (by omega)
      simp [MapMusicMain, h1, MapMusicInv, PlayBGM, emit, hn]
    · have hn : s.sNextMapMusic = 0 := hnext (by omega) (by omega)
      simp [MapMusicMain, h2, MapMusicInv, hn]
    · have hn : s.sNextMapMusic = 0 := hnext (by omega) (by omega)
      have hc : s.sCurrentMapMusic = 0 := hcur (Or.inl h5)
      rw [MapMusicMain_state5 c e s h5]
      split_ifs <;> simp [MapMusicInv, h5, hn, hc]
    · have hc : s.sCurrentMapMusic = 0 := hcur (Or.inr (Or.inl h6))
      rw [MapMusicMain_state6 c e s h6]
      split_ifs <;> simp [MapMusicInv, h6, hc, PlayBGM, emit]
    · have hc : s.sCurrentMapMusic = 0 := hcur (Or.inr (Or.inr h7))
      rw [MapMusicMain_state7 c e s h7]
      split_ifs <;> simp [MapMusicInv, h7, hc]

/-- Every sequence of map-music operations keeps the map-music invariant. -/
theorem MapMusicInv_runMapMusicOps (c : Consts) (ops : List MapMusicOp) :
    ∀ s : State, MapMusicInv s → MapMusicInv (runMapMusicOps c ops s) := by
  induction ops with
  | nil => intro s h; exact h
  | cons op ops ih => intro s h; exact ih _ (MapMusicInv_run c op s h)

/-- C14: in every state reached from `InitMapMusic` by any sequence of
`PlayNewMapMusic`, `StopMapMusic`, `FadeOutMapMusic`,
`FadeOutAndPlayNewMapMusic`, `FadeOutAndFadeInNewMapMusic` and `MapMusicMain`
(in any environment), the state value is one of `0`, `1`, `2`, `5`, `6`, `7`;
pending is `0` whenever the state is neither `6` nor `7`; current is `0`
whenever the state is `5`, `6` or `7`; so current and pending are never both
non-zero. -/
theorem C14_map_music_invariant (c : Consts) (ops : List MapMusicOp) (s0 : State) :
    MapMusicInv (runMapMusicOps c ops (InitMapMusic s0)) ∧
      ((runMapMusicOps c ops (InitMapMusic s0)).sCurrentMapMusic = 0 ∨
        (runMapMusicOps c ops (InitMapMusic s0)).sNextMapMusic = 0) := by
  have hinv : MapMusicInv (runMapMusicOps c ops (InitMapMusic s0)) :=
    MapMusicInv_runMapMusicOps c ops _ (by simp [MapMusicInv, InitMapMusic, ResetMapMusic])
  refine ⟨hinv, ?_⟩
  obtain ⟨hstate, hnext, hcur⟩ := hinv
  by_cases h6 : (runMapMusicOps c ops (InitMapMusic s0)).sMapMusicState = 6
  · exact Or.inl (hcur (Or.inr (Or.inl h6)))
  · by_cases h7 : (runMapMusicOps c ops (InitMapMusic s0)).sMapMusicState = 7
    · exact Or.inl (hcur (Or.inr (Or.inr h7)))
    · exact Or.inr (hnext h6 h7)

/-- The function `CreateFanfareTask` makes no engine call. -/
theorem CreateFanfareTask_calls (s : State) : (CreateFanfareTask s).calls = s.calls := by
  unfold CreateFanfareTask CreateTask
  split_ifs <;> rfl

/-- C15: for every song id `PlayFanfare` succeeds, which in this model means
that every read of the fanfare table is at an index below its `45` entries,
and it makes exactly one call `PlayFanfareByFanfareNum(j)`, followed by
`CreateFanfareTask()`: `j` is the index of the first table entry whose
`songNum` matches, or `0` when no entry matches.  Outside log-playback mode
its engine calls are the stop of the BGM player and the start of one song, the
regional id of entry `j`. -/
theorem C15_playFanfare_total (c : Consts) (e : Env) (songNum : Nat) (s : State) :
    (sFanfares c).length = 45 ∧
    ∃ j s1, j < 45 ∧
      PlayFanfareByFanfareNum c e j s = some s1 ∧
      PlayFanfare c e songNum s = some (CreateFanfareTask s1) ∧
      ((∃ f, (sFanfares c)[j]? = some f ∧ f.songNum = songNum ∧
          ∀ k g, k < j → (sFanfares c)[k]? = some g → g.songNum ≠ songNum) ∨
        (j = 0 ∧ ∀ g ∈ sFanfares c, g.songNum ≠ songNum)) ∧
      (e.gQuestLogState ≠ c.QL_STATE_PLAYBACK →
        ∀ f, (sFanfares c)[j]? = some f →
          (CreateFanfareTask s1).calls = s.calls ++
            [.m4aMPlayStop .gMPlayInfo_BGM,
              .m4aSongNumStart (RegionalMusicHandler c e f.songNum)]) := by
  have hlen : (sFanfares c).length = 45 := rfl
  obtain ⟨j, hj, hloop, hfirst⟩ :=
    PlayFanfare_loop_spec c e songNum s (sFanfares c).length 0 (by simp)
      (fun k g hk _ => absurd hk (Nat.not_lt_zero k))
  obtain ⟨s1, hs1, _, hcalls⟩ := PlayFanfareByFanfareNum_of_lt c e j s hj
  refine ⟨hlen, j, s1, by omega, hs1, by rw [PlayFanfare, hloop, hs1]; rfl, hfirst, ?_⟩
  intro hq f hf
  rw [CreateFanfareTask_calls]
  exact hcalls hq f hf

/-- The effect of `FadeOutMapMusic` in one step. -/
theorem FadeOutMapMusic_eq (speed : Nat) (s : State) :
    FadeOutMapMusic speed s =
      { s with
        sCurrentMapMusic := 0
        sNextMapMusic := 0
        sMapMusicState := 5
        calls :=
          if s.sMapMusicState = 5 ∨ s.sMapMusicState = 6 ∨ s.sMapMusicState = 7 then s.calls
          else s.calls ++ [.m4aMPlayFadeOut .gMPlayInfo_BGM speed] } := by
  unfold FadeOutMapMusic IsNotWaitingForBGMStop
  by_cases h6 : s.sMapMusicState = 6
  · simp [h6]
  · by_cases h5 : s.sMapMusicState = 5
    · simp [h5]
    · by_cases h7 : s.sMapMusicState = 7
      · simp [h7]
      · simp [h5, h6, h7, FadeOutBGM, emit]

/-- C16: for every song `Y` and speed, `FadeOutAndPlayNewMapMusic(Y, speed)`
leaves current `0`, pending `Y` and state `6`.  A following `MapMusicMain`
tick taken when the BGM reports stopped and no fanfare task is registered
starts song `Y` through `PlayBGM` (one engine call, `m4aSongNumStart` of the
regional id of `Y`) and yields current `Y`, pending `0`, state `2`.  A tick
taken while the BGM is not stopped changes nothing and issues no engine
call. -/
theorem C16_fade_out_then_switch (c : Consts) (e1 e2 : Env) (Y speed : Nat) (s : State)
    (hstop : e1.bgmStatus &&& c.MUSICPLAYER_STATUS_TRACK = 0)
    (hf : FuncIsActiveTask .Task_Fanfare s = false)
    (hactive : e2.bgmStatus &&& c.MUSICPLAYER_STATUS_TRACK ≠ 0) :
    (FadeOutAndPlayNewMapMusic Y speed s).sCurrentMapMusic = 0 ∧
      (FadeOutAndPlayNewMapMusic Y speed s).sNextMapMusic = Y ∧
      (FadeOutAndPlayNewMapMusic Y speed s).sMapMusicState = 6 ∧
      MapMusicMain c e1 (FadeOutAndPlayNewMapMusic Y speed s) =
        PlayBGM c e1 Y
          { FadeOutAndPlayNewMapMusic Y speed s with
            sCurrentMapMusic := Y, sNextMapMusic := 0, sMapMusicState := 2 } ∧
      MapMusicMain c e1 (FadeOutAndPlayNewMapMusic Y speed s) =
        { FadeOutAndPlayNewMapMusic Y speed s with
          sCurrentMapMusic := Y
          sNextMapMusic := 0
          sMapMusicState := 2
          calls := (FadeOutAndPlayNewMapMusic Y speed s).calls ++
            [.m4aSongNumStart (RegionalMusicHandler c e1 Y)] } ∧
      MapMusicMain c e2 (FadeOutAndPlayNewMapMusic Y speed s) =
        FadeOutAndPlayNewMapMusic Y speed s := by
  have hf1 : FuncIsActiveTask .Task_Fanfare (FadeOutAndPlayNewMapMusic Y speed s) = false := by
    simpa [FadeOutAndPlayNewMapMusic, FadeOutMapMusic_eq, FuncIsActiveTask] using hf
  have h6 : (FadeOutAndPlayNewMapMusic Y speed s).sMapMusicState = 6 := rfl
  have hY : (FadeOutAndPlayNewMapMusic Y speed s).sNextMapMusic = Y := rfl
  refine ⟨rfl, rfl, rfl, ?_, ?_, ?_⟩
  · rw [MapMusicMain_state6 c e1 _ h6, if_pos ⟨hstop, hf1⟩, hY]
  · rw [MapMusicMain_state6 c e1 _ h6, if_pos ⟨hstop, hf1⟩, hY]
    simp [PlayBGM, emit]
  · rw [MapMusicMain_state6 c e2 _ h6, if_neg (fun h => hactive h.1)]

/-- Witness for C16: a switch to song `300` from the start-up state, with the
BGM stopped in the sample environment and active in the other one. -/
theorem C16_fade_out_then_switch_witness :
    sampleEnv.bgmStatus &&& sampleConsts.MUSICPLAYER_STATUS_TRACK = 0 ∧
    FuncIsActiveTask .Task_Fanfare initState = false ∧
    sampleEnvBGMActive.bgmStatus &&& sampleConsts.MUSICPLAYER_STATUS_TRACK ≠ 0 ∧
    MapMusicMain sampleConsts sampleEnv (FadeOutAndPlayNewMapMusic 300 4 initState) =
      { FadeOutAndPlayNewMapMusic 300 4 initState with
        sCurrentMapMusic := 300
        sNextMapMusic := 0
        sMapMusicState := 2
        calls := (FadeOutAndPlayNewMapMusic 300 4 initState).calls ++
          [.m4aSongNumStart (RegionalMusicHandler sampleConsts sampleEnv 300)] } ∧
    MapMusicMain sampleConsts sampleEnvBGMActive (FadeOutAndPlayNewMapMusic 300 4 initState) =
      FadeOutAndPlayNewMapMusic 300 4 initState :=
  ⟨by decide, by decide, by decide,
    (C16_fade_out_then_switch sampleConsts sampleEnv sampleEnvBGMActive 300 4 initState
      (by decide) (by decide) (by decide)).2.2.2.2.1,
    (C16_fade_out_then_switch sampleConsts sampleEnv sampleEnvBGMActive 300 4 initState
      (by decide) (by decide) (by decide)).2.2.2.2.2⟩

/-- C17 (as amended): for every song `Y`, fade-out speed `o` and fade-in speed
`i`, `FadeOutAndFadeInNewMapMusic(Y, o, i)` leaves current `0`, pending `Y`,
state `7` and stored fade-in speed `i`.  A following `MapMusicMain` tick taken
when the BGM reports stopped and no fanfare task is registered performs
`FadeInNewBGM(Y, i)`: it issues the engine calls of a fade-in at speed `i`,
of song `Y`, or of song `0` when music is disabled (`gDisableMusic` set) or
`Y` is `MUS_NONE`; and it yields current `Y`, pending `0`, state `2` and
stored fade-in speed `0`. -/
theorem C17_fade_out_then_fade_in (c : Consts) (e : Env) (Y o i : Nat) (s : State)
    (hstop : e.bgmStatus &&& c.MUSICPLAYER_STATUS_TRACK = 0)
    (hf : FuncIsActiveTask .Task_Fanfare s = false) :
    (FadeOutAndFadeInNewMapMusic Y o i s).sCurrentMapMusic = 0 ∧
      (FadeOutAndFadeInNewMapMusic Y o i s).sNextMapMusic = Y ∧
      (FadeOutAndFadeInNewMapMusic Y o i s).sMapMusicState = 7 ∧
      (FadeOutAndFadeInNewMapMusic Y o i s).sMapMusicFadeInSpeed = i ∧
      MapMusicMain c e (FadeOutAndFadeInNewMapMusic Y o i s) =
        { FadeInNewBGM c Y i (FadeOutAndFadeInNewMapMusic Y o i s) with
          sCurrentMapMusic := Y
          sNextMapMusic := 0
          sMapMusicState := 2
          sMapMusicFadeInSpeed := 0 } ∧
      (MapMusicMain c e (FadeOutAndFadeInNewMapMusic Y o i s)).calls =
        (FadeOutAndFadeInNewMapMusic Y o i s).calls ++
          [.m4aSongNumStart
              (if s.gDisableMusic = true ∨ Y = c.song .MUS_NONE then 0 else Y),
            .m4aMPlayImmInit .gMPlayInfo_BGM,
            .m4aMPlayVolumeControl .gMPlayInfo_BGM c.TRACKS_ALL 0,
            .m4aSongNumStop
              (if s.gDisableMusic = true ∨ Y = c.song .MUS_NONE then 0 else Y),
            .m4aMPlayFadeIn .gMPlayInfo_BGM i] := by
  have hf1 : FuncIsActiveTask .Task_Fanfare (FadeOutAndFadeInNewMapMusic Y o i s) = false := by
    simpa [FadeOutAndFadeInNewMapMusic, FadeOutMapMusic_eq, FuncIsActiveTask] using hf
  have h7 : (FadeOutAndFadeInNewMapMusic Y o i s).sMapMusicState = 7 := rfl
  have hd : (FadeOutAndFadeInNewMapMusic Y o i s).gDisableMusic = s.gDisableMusic := by
    simp [FadeOutAndFadeInNewMapMusic, FadeOutMapMusic_eq]
  have hY : (FadeOutAndFadeInNewMapMusic Y o i s).sNextMapMusic = Y := rfl
  have hi : (FadeOutAndFadeInNewMapMusic Y o i s).sMapMusicFadeInSpeed = i := rfl
  have htick : MapMusicMain c e (FadeOutAndFadeInNewMapMusic Y o i s) =
      { FadeInNewBGM c Y i (FadeOutAndFadeInNewMapMusic Y o i s) with
        sCurrentMapMusic := Y
        sNextMapMusic := 0
        sMapMusicState := 2
        sMapMusicFadeInSpeed := 0 } := by
    rw [MapMusicMain_state7 c e _ h7, if_pos ⟨hstop, hf1⟩, hY, hi]
  refine ⟨rfl, rfl, rfl, rfl, htick, ?_⟩
  rw [htick, FadeInNewBGM_eq]
  simp only [hd]

/-- Witness for C17: a fade to song `300` from the start-up state in the sample
environment, once with music disabled and once with music enabled. -/
theorem C17_fade_out_then_fade_in_witness :
    sampleEnv.bgmStatus &&& sampleConsts.MUSICPLAYER_STATUS_TRACK = 0 ∧
    FuncIsActiveTask .Task_Fanfare { initState with gDisableMusic := true } = false ∧
    FuncIsActiveTask .Task_Fanfare initState = false ∧
    (MapMusicMain sampleConsts sampleEnv
        (FadeOutAndFadeInNewMapMusic 300 4 6 { initState with gDisableMusic := true })).calls =
      (FadeOutAndFadeInNewMapMusic 300 4 6 { initState with gDisableMusic := true }).calls ++
        [.m4aSongNumStart
            (if ({ initState with gDisableMusic := true } : State).gDisableMusic = true ∨
                300 = sampleConsts.song .MUS_NONE then 0
              else 300),
          .m4aMPlayImmInit .gMPlayInfo_BGM,
          .m4aMPlayVolumeControl .gMPlayInfo_BGM sampleConsts.TRACKS_ALL 0,
          .m4aSongNumStop
            (if ({ initState with gDisableMusic := true } : State).gDisableMusic = true ∨
                300 = sampleConsts.song .MUS_NONE then 0
              else 300),
          .m4aMPlayFadeIn .gMPlayInfo_BGM 6] ∧
    (MapMusicMain sampleConsts sampleEnv (FadeOutAndFadeInNewMapMusic 300 4 6 initState)).calls =
      (FadeOutAndFadeInNewMapMusic 300 4 6 initState).calls ++
        [.m4aSongNumStart
            (if initState.gDisableMusic = true ∨ 300 = sampleConsts.song .MUS_NONE then 0
              else 300),
          .m4aMPlayImmInit .gMPlayInfo_BGM,
          .m4aMPlayVolumeControl .gMPlayInfo_BGM sampleConsts.TRACKS_ALL 0,
          .m4aSongNumStop
            (if initState.gDisableMusic = true ∨ 300 = sampleConsts.song .MUS_NONE then 0
              else 300),
          .m4aMPlayFadeIn .gMPlayInfo_BGM 6] :=
  ⟨by decide, by decide, by decide,
    (C17_fade_out_then_fade_in sampleConsts sampleEnv 300 4 6
      { initState with gDisableMusic := true } (by decide) (by decide)).2.2.2.2.2,
    (C17_fade_out_then_fade_in sampleConsts sampleEnv 300 4 6 initState
      (by decide) (by decide)).2.2.2.2.2⟩

/-- C17 fails as stated: in the sample environment (BGM stopped, no fanfare
task) the tick after `FadeOutAndFadeInNewMapMusic(Y, 4, 6)` fades in song `0`,
not song `Y`, when music is disabled (`Y = 300`, which still becomes the
current map music) and when `Y` is `MUS_NONE` (`65535`). -/
theorem C17_counterexample :
    sampleEnv.bgmStatus &&& sampleConsts.MUSICPLAYER_STATUS_TRACK = 0 ∧
    (MapMusicMain sampleConsts sampleEnv
        (FadeOutAndFadeInNewMapMusic 300 4 6 { initState with gDisableMusic := true })).calls =
      [.m4aMPlayFadeOut .gMPlayInfo_BGM 4, .m4aSongNumStart 0,
        .m4aMPlayImmInit .gMPlayInfo_BGM, .m4aMPlayVolumeControl .gMPlayInfo_BGM 65535 0,
        .m4aSongNumStop 0, .m4aMPlayFadeIn .gMPlayInfo_BGM 6] ∧
    (MapMusicMain sampleConsts sampleEnv
        (FadeOutAndFadeInNewMapMusic 300 4 6
          { initState with gDisableMusic := true })).sCurrentMapMusic = 300 ∧
    sampleConsts.song .MUS_NONE = 65535 ∧
    (MapMusicMain sampleConsts sampleEnv
        (FadeOutAndFadeInNewMapMusic 65535 4 6 initState)).calls =
      [.m4aMPlayFadeOut .gMPlayInfo_BGM 4, .m4aSongNumStart 0,
        .m4aMPlayImmInit .gMPlayInfo_BGM, .m4aMPlayVolumeControl .gMPlayInfo_BGM 65535 0,
        .m4aSongNumStop 0, .m4aMPlayFadeIn .gMPlayInfo_BGM 6] := by
  decide

/-- C18: in state `5` a `MapMusicMain` tick moves to state `0` with pending
`0` exactly when the BGM reports stopped, whatever tasks are registered, and
otherwise changes nothing; in states `0` and `2` a tick changes nothing,
engine calls included, whatever the backend status. -/
theorem C18_fade_to_stop_and_resting_states (c : Consts) (e : Env) (s : State) :
    MapMusicMain c e { s with sMapMusicState := 5 } =
        (if e.bgmStatus &&& c.MUSICPLAYER_STATUS_TRACK = 0 then
          { s with sNextMapMusic := 0, sMapMusicState := 0 }
        else { s with sMapMusicState := 5 }) ∧
      MapMusicMain c e { s with sMapMusicState := 0 } = { s with sMapMusicState := 0 } ∧
      MapMusicMain c e { s with sMapMusicState := 2 } = { s with sMapMusicState := 2 } := by
  refine ⟨?_, ?_, ?_⟩
  · rw [MapMusicMain_state5 c e _ rfl]
  · simp [MapMusicMain]
  · simp [MapMusicMain]

/-- The `switch` of `PlayCryInternal` sets the reverse flag for the modes
EchoStart and Growl1 and for no other mode value. -/
theorem PlayCryInternal_switch_reverse (mode : Nat) (l : CryLocals)
    (hl : l.reverse = false) :
    (PlayCryInternal.switch mode l).reverse =
      decide (mode = CRY_MODE_ECHO_START ∨ mode = CRY_MODE_GROWL_1) := by
  by_cases h4 : mode = CRY_MODE_ECHO_START
  · subst h4
    rfl
  · by_cases h9 : mode = CRY_MODE_GROWL_1
    · subst h9
      rfl
    · have hdec : decide (mode = CRY_MODE_ECHO_START ∨ mode = CRY_MODE_GROWL_1) = false := by
        simp [h4, h9]
      rw [hdec]
      unfold PlayCryInternal.switch
      by_cases hm : mode = CRY_MODE_NORMAL
      · rw [if_pos hm]; exact hl
      rw [if_neg hm]
      clear hm
      by_cases hm : mode = CRY_MODE_DOUBLES
      · rw [if_pos hm]; exact hl
      rw [if_neg hm]
      clear hm
      by_cases hm : mode = CRY_MODE_ENCOUNTER
      · rw [if_pos hm]; exact hl
      rw [if_neg hm]
      clear hm
      by_cases hm : mode = CRY_MODE_HIGH_PITCH
      · rw [if_pos hm]; exact hl
      rw [if_neg hm]
      clear hm
      rw [if_neg h4]
      by_cases hm : mode = CRY_MODE_FAINT
      · rw [if_pos hm]; exact hl
      rw [if_neg hm]
      clear hm
      by_cases hm : mode = CRY_MODE_ECHO_END
      · rw [if_pos hm]; exact hl
      rw [if_neg hm]
      clear hm
      by_cases hm : mode = CRY_MODE_ROAR_1
      · rw [if_pos hm]; exact hl
      rw [if_neg hm]
      clear hm
      by_cases hm : mode = CRY_MODE_ROAR_2
      · rw [if_pos hm]; exact hl
      rw [if_neg hm]
      clear hm
      rw [if_neg h9]
      by_cases hm : mode = CRY_MODE_GROWL_2
      · rw [if_pos hm]; exact hl
      rw [if_neg hm]
      clear hm
      by_cases hm : mode = CRY_MODE_WEAK_DOUBLES
      · rw [if_pos hm]; exact hl
      rw [if_neg hm]
      clear hm
      by_cases hm : mode = CRY_MODE_WEAK
      · rw [if_pos hm]; exact hl
      rw [if_neg hm]
      clear hm
      exact hl

/-- C19: for every species whose cry id is not `CRY_NONE`, and every mode value
(also outside the 13 named modes), `PlayCryInternal` issues the eight cry
setters and then selects exactly one tone: entry `cryId - 1` of the reverse
tone table when the mode is EchoStart or Growl1, and entry `cryId - 1` of the
forward tone table otherwise; the player that `SetPokemonCryTone` returns for
that tone is stored in `gMPlay_PokemonCry`, and nothing else changes. -/
theorem C19_tone_selection (c : Consts) (e : Env) (species : Nat) (pan volume : Int)
    (priority mode : Nat) (s : State) (h : c.GetCryIdBySpecies species ≠ CRY_NONE) :
    ∃ vol pitch length release chorus,
      PlayCryInternal c e species pan volume priority mode s =
        { s with
          gMPlay_PokemonCry :=
            e.SetPokemonCryTone
              (if mode = CRY_MODE_ECHO_START ∨ mode = CRY_MODE_GROWL_1 then
                ToneRef.gCryTable_Reverse (c.GetCryIdBySpecies species - 1)
              else ToneRef.gCryTable (c.GetCryIdBySpecies species - 1))
          calls := s.calls ++
            [.SetPokemonCryVolume vol, .SetPokemonCryPanpot pan, .SetPokemonCryPitch pitch,
              .SetPokemonCryLength length, .SetPokemonCryProgress 0,
              .SetPokemonCryRelease release, .SetPokemonCryChorus chorus,
              .SetPokemonCryPriority priority,
              .SetPokemonCryTone
                (if mode = CRY_MODE_ECHO_START ∨ mode = CRY_MODE_GROWL_1 then
                  ToneRef.gCryTable_Reverse (c.GetCryIdBySpecies species - 1)
                else ToneRef.gCryTable (c.GetCryIdBySpecies species - 1))] } := by
  have hrev := PlayCryInternal_switch_reverse mode ⟨false, 0, 210, 15360, 0, volume⟩ rfl
  unfold PlayCryInternal
  dsimp only
  generalize PlayCryInternal.switch mode ⟨false, 0, 210, 15360, 0, volume⟩ = l at hrev
  rw [if_pos h]
  refine ⟨l.volume, l.pitch, l.length, l.release, l.chorus, ?_⟩
  by_cases hm : mode = CRY_MODE_ECHO_START ∨ mode = CRY_MODE_GROWL_1
  · have hr : l.reverse = true := by rw [hrev]; simpa using hm
    simp [emit, hr, hm]
  · have hr : l.reverse = false := by rw [hrev]; simpa using hm
    simp [emit, hr, hm]

/-- Witness for C19: species `2` of the sample constants (cry id `2`) in mode
Growl1 selects entry `1` of the reverse tone table. -/
theorem C19_tone_selection_witness :
    sampleConsts.GetCryIdBySpecies 2 ≠ CRY_NONE ∧
    ∃ vol pitch length release chorus,
      PlayCryInternal sampleConsts sampleEnv 2 5 100 10 CRY_MODE_GROWL_1 initState =
        { initState with
          gMPlay_PokemonCry :=
            sampleEnv.SetPokemonCryTone
              (if CRY_MODE_GROWL_1 = CRY_MODE_ECHO_START ∨ CRY_MODE_GROWL_1 = CRY_MODE_GROWL_1
                then ToneRef.gCryTable_Reverse (sampleConsts.GetCryIdBySpecies 2 - 1)
              else ToneRef.gCryTable (sampleConsts.GetCryIdBySpecies 2 - 1))
          calls := initState.calls ++
            [.SetPokemonCryVolume vol, .SetPokemonCryPanpot 5, .SetPokemonCryPitch pitch,
              .SetPokemonCryLength length, .SetPokemonCryProgress 0,
              .SetPokemonCryRelease release, .SetPokemonCryChorus chorus,
              .SetPokemonCryPriority 10,
              .SetPokemonCryTone
                (if CRY_MODE_GROWL_1 = CRY_MODE_ECHO_START ∨
                    CRY_MODE_GROWL_1 = CRY_MODE_GROWL_1 then
                  ToneRef.gCryTable_Reverse (sampleConsts.GetCryIdBySpecies 2 - 1)
                else ToneRef.gCryTable (sampleConsts.GetCryIdBySpecies 2 - 1))] } :=
  ⟨by decide,
    C19_tone_selection sampleConsts sampleEnv 2 5 100 10 CRY_MODE_GROWL_1 initState
      (by decide)⟩

/-- While the countdown lasts, ticks of `Task_Fanfare` outside headless test
mode only lower the countdown, by one each. -/
theorem Task_FanfareTicks_of_le (taskId : Nat) (envs : List Env) :
    ∀ s : State, (∀ e ∈ envs, e.gTestRunnerHeadless = false) →
      envs.length ≤ s.sFanfareCounter →
      Task_FanfareTicks taskId envs s =
        { s with sFanfareCounter := s.sFanfareCounter - envs.length } := by
  induction envs with
  | nil => intro s _ _; simp [Task_FanfareTicks]
  | cons e es ih =>
    intro s hhead hlen
    have he : e.gTestRunnerHeadless = false := hhead e (List.mem_cons_self e es)
    have hlen2 : es.length + 1 ≤ s.sFanfareCounter := by simpa using hlen
    have hne : s.sFanfareCounter ≠ 0 := by omega
    have hstep : Task_Fanfare e taskId s =
        { s with sFanfareCounter := s.sFanfareCounter - 1 } := by
      simp [Task_Fanfare, decU16, he, hne]
    rw [Task_FanfareTicks, hstep,
      ih _ (fun e' he' => hhead e' (List.mem_cons_of_mem e he')) (by simp only; omega)]
    simp only [List.length_cons, Nat.sub_sub]
    congr 1
    omega

/-- C20: outside headless test mode, when the fanfare task is registered (once,
under `taskId`) with countdown `N`, each of its first `N` ticks only lowers
the countdown by one, so the task stays registered and no engine call is made;
tick `N + 1` resumes the BGM with a single `m4aMPlayContinue` on the BGM
player and unregisters the task, leaving the countdown at `0`. -/
theorem C20_fanfare_task_timing (envs : List Env) (e : Env) (taskId : Nat) (s : State)
    (hhead : ∀ e1 ∈ envs, e1.gTestRunnerHeadless = false)
    (he : e.gTestRunnerHeadless = false)
    (hN : envs.length = s.sFanfareCounter)
    (ht : (s.tasks[taskId]?).map Task.func = some .Task_Fanfare)
    (h1 : fanfareTaskCount s = 1) :
    (∀ k, k ≤ envs.length →
        Task_FanfareTicks taskId (envs.take k) s =
          { s with sFanfareCounter := s.sFanfareCounter - k } ∧
        FuncIsActiveTask .Task_Fanfare (Task_FanfareTicks taskId (envs.take k) s) = true ∧
        (Task_FanfareTicks taskId (envs.take k) s).calls = s.calls) ∧
      Task_Fanfare e taskId (Task_FanfareTicks taskId envs s) =
        DestroyTask taskId
          (emit (.m4aMPlayContinue .gMPlayInfo_BGM) { s with sFanfareCounter := 0 }) ∧
      (Task_Fanfare e taskId (Task_FanfareTicks taskId envs s)).calls =
        s.calls ++ [.m4aMPlayContinue .gMPlayInfo_BGM] ∧
      FuncIsActiveTask .Task_Fanfare
        (Task_Fanfare e taskId (Task_FanfareTicks taskId envs s)) = false ∧
      (Task_Fanfare e taskId (Task_FanfareTicks taskId envs s)).sFanfareCounter = 0 := by
  have hact : ∀ n, FuncIsActiveTask .Task_Fanfare { s with sFanfareCounter := n } = true := by
    intro n
    rw [FuncIsActiveTask_eq_true_iff]
    have : s.tasks.countP (fun t => t.func == .Task_Fanfare) = 1 := h1
    simp only [this]
    decide
  have hlast : Task_Fanfare e taskId (Task_FanfareTicks taskId envs s) =
      DestroyTask taskId
        (emit (.m4aMPlayContinue .gMPlayInfo_BGM) { s with sFanfareCounter := 0 }) := by
    rw [Task_FanfareTicks_of_le taskId envs s hhead (by omega), hN]
    simp [Task_Fanfare, decU16, he]
  refine ⟨?_, hlast, ?_, ?_, ?_⟩
  · intro k hk
    have hlen : (envs.take k).length = k := by simp [List.length_take, hk]
    have heq := Task_FanfareTicks_of_le taskId (envs.take k) s
      (fun e1 he1 => hhead e1 (List.mem_of_mem_take he1)) (by omega)
    rw [hlen] at heq
    rw [heq]
    exact ⟨rfl, hact _, rfl⟩
  · rw [hlast]; rfl
  · rw [hlast, FuncIsActiveTask_eq_false_iff]
    obtain ⟨t, htt, hfun⟩ := Option.map_eq_some'.mp ht
    have hcount := countP_eraseIdx_add_one (fun t => t.func == .Task_Fanfare)
      s.tasks taskId t htt (by simp [hfun])
    have : s.tasks.countP (fun t => t.func == .Task_Fanfare) = 1 := h1
    simp only [DestroyTask, emit]
    omega
  · rw [hlast]; rfl

/-- Witness for C20: the fanfare task registered alone with countdown `2`, two
ticks and then a third in the sample environment. -/
theorem C20_fanfare_task_timing_witness :
    (∀ e1 ∈ [sampleEnv, sampleEnv], e1.gTestRunnerHeadless = false) ∧
    sampleEnv.gTestRunnerHeadless = false ∧
    [sampleEnv, sampleEnv].length =
      ({ initState with sFanfareCounter := 2, tasks := [⟨.Task_Fanfare, 80⟩] } : State).sFanfareCounter ∧
    (Task_Fanfare sampleEnv 0
      (Task_FanfareTicks 0 [sampleEnv, sampleEnv]
        { initState with sFanfareCounter := 2, tasks := [⟨.Task_Fanfare, 80⟩] })).calls =
      initState.calls ++ [.m4aMPlayContinue .gMPlayInfo_BGM] ∧
    FuncIsActiveTask .Task_Fanfare
      (Task_Fanfare sampleEnv 0
        (Task_FanfareTicks 0 [sampleEnv, sampleEnv]
          { initState with sFanfareCounter := 2, tasks := [⟨.Task_Fanfare, 80⟩] })) = false :=
  ⟨by simp [sampleEnv], by decide, by decide,
    (C20_fanfare_task_timing [sampleEnv, sampleEnv] sampleEnv 0
      { initState with sFanfareCounter := 2, tasks := [⟨.Task_Fanfare, 80⟩] }
      (by simp [sampleEnv]) (by decide) (by decide) (by decide) (by decide)).2.2.1,
    (C20_fanfare_task_timing [sampleEnv, sampleEnv] sampleEnv 0
      { initState with sFanfareCounter := 2, tasks := [⟨.Task_Fanfare, 80⟩] }
      (by simp [sampleEnv]) (by decide) (by decide) (by decide) (by decide)).2.2.2.1⟩

/-- The effect of `RestoreBGMVolumeAfterPokemonCry` in one step: the ducking
task is added when it is not registered. -/
theorem RestoreBGMVolumeAfterPokemonCry_eq (s : State) :
    RestoreBGMVolumeAfterPokemonCry s =
      { s with
        tasks := if FuncIsActiveTask .Task_DuckBGMForPokemonCry s = true then s.tasks
                 else s.tasks ++ [⟨.Task_DuckBGMForPokemonCry, 80⟩] } := by
  unfold RestoreBGMVolumeAfterPokemonCry CreateTask
  by_cases h : FuncIsActiveTask .Task_DuckBGMForPokemonCry s = true <;> simp [h]

/-- After `RestoreBGMVolumeAfterPokemonCry` the ducking task is registered. -/
theorem RestoreBGMVolumeAfterPokemonCry_active (s : State) :
    FuncIsActiveTask .Task_DuckBGMForPokemonCry (RestoreBGMVolumeAfterPokemonCry s) = true := by
  rw [RestoreBGMVolumeAfterPokemonCry_eq]
  by_cases h : FuncIsActiveTask .Task_DuckBGMForPokemonCry s = true
  · rw [if_pos h]
    exact h
  · rw [if_neg h]
    simp [FuncIsActiveTask]

/-- The `switch` of `PlayCryInternal` replaces the volume by `90` for the
modes Encounter, HighPitch, EchoStart and EchoEnd and keeps it for every other
mode value. -/
theorem PlayCryInternal_switch_volume (mode : Nat) (l : CryLocals) :
    (PlayCryInternal.switch mode l).volume =
      if mode = CRY_MODE_ENCOUNTER ∨ mode = CRY_MODE_HIGH_PITCH ∨
          mode = CRY_MODE_ECHO_START ∨ mode = CRY_MODE_ECHO_END then 90
      else l.volume := by
  unfold PlayCryInternal.switch
  by_cases hNORMAL : mode = CRY_MODE_NORMAL
  · rw [if_pos hNORMAL]; subst hNORMAL; rfl
  rw [if_neg hNORMAL]
  by_cases hDOUBLES : mode = CRY_MODE_DOUBLES
  · rw [if_pos hDOUBLES]; subst hDOUBLES; rfl
  rw [if_neg hDOUBLES]
  by_cases hENCOUNTER : mode = CRY_MODE_ENCOUNTER
  · rw [if_pos hENCOUNTER]; subst hENCOUNTER; rfl
  rw [if_neg hENCOUNTER]
  by_cases hHIGH_PITCH : mode = CRY_MODE_HIGH_PITCH
  · rw [if_pos hHIGH_PITCH]; subst hHIGH_PITCH; rfl
  rw [if_neg hHIGH_PITCH]
  by_cases hECHO_START : mode = CRY_MODE_ECHO_START
  · rw [if_pos hECHO_START]; subst hECHO_START; rfl
  rw [if_neg hECHO_START]
  by_cases hFAINT : mode = CRY_MODE_FAINT
  · rw [if_pos hFAINT]; subst hFAINT; rfl
  rw [if_neg hFAINT]
  by_cases hECHO_END : mode = CRY_MODE_ECHO_END
  · rw [if_pos hECHO_END]; subst hECHO_END; rfl
  rw [if_neg hECHO_END]
  by_cases hROAR_1 : mode = CRY_MODE_ROAR_1
  · rw [if_pos hROAR_1]; subst hROAR_1; rfl
  rw [if_neg hROAR_1]
  by_cases hROAR_2 : mode = CRY_MODE_ROAR_2
  · rw [if_pos hROAR_2]; subst hROAR_2; rfl
  rw [if_neg hROAR_2]
  by_cases hGROWL_1 : mode = CRY_MODE_GROWL_1
  · rw [if_pos hGROWL_1]; subst hGROWL_1; rfl
  rw [if_neg hGROWL_1]
  by_cases hGROWL_2 : mode = CRY_MODE_GROWL_2
  · rw [if_pos hGROWL_2]; subst hGROWL_2; rfl
  rw [if_neg hGROWL_2]
  by_cases hWEAK_DOUBLES : mode = CRY_MODE_WEAK_DOUBLES
  · rw [if_pos hWEAK_DOUBLES]; subst hWEAK_DOUBLES; rfl
  rw [if_neg hWEAK_DOUBLES]
  by_cases hWEAK : mode = CRY_MODE_WEAK
  · rw [if_pos hWEAK]; subst hWEAK; rfl
  rw [if_neg hWEAK]
  rw [if_neg (by simp [hENCOUNTER, hHIGH_PITCH, hECHO_START, hECHO_END])]

/-- The effect of `PlayCryInternal` in one step, in terms of the locals after
the `switch`. -/
theorem PlayCryInternal_eq (c : Consts) (e : Env) (species : Nat) (pan volume : Int)
    (priority mode : Nat) (s : State) :
    PlayCryInternal c e species pan volume priority mode s =
      { s with
        gMPlay_PokemonCry :=
          if c.GetCryIdBySpecies species = CRY_NONE then s.gMPlay_PokemonCry
          else e.SetPokemonCryTone
            (if (PlayCryInternal.switch mode ⟨false, 0, 210, 15360, 0, volume⟩).reverse = true
              then ToneRef.gCryTable_Reverse (c.GetCryIdBySpecies species - 1)
              else ToneRef.gCryTable (c.GetCryIdBySpecies species - 1))
        calls := s.calls ++ cryCalls (c.GetCryIdBySpecies species) pan
          (PlayCryInternal.switch mode ⟨false, 0, 210, 15360, 0, volume⟩).volume priority
          (PlayCryInternal.switch mode ⟨false, 0, 210, 15360, 0, volume⟩).length
          (PlayCryInternal.switch mode ⟨false, 0, 210, 15360, 0, volume⟩).release
          (PlayCryInternal.switch mode ⟨false, 0, 210, 15360, 0, volume⟩).pitch
          (PlayCryInternal.switch mode ⟨false, 0, 210, 15360, 0, volume⟩).chorus
          (PlayCryInternal.switch mode ⟨false, 0, 210, 15360, 0, volume⟩).reverse } := by
  unfold PlayCryInternal
  dsimp only
  generalize PlayCryInternal.switch mode ⟨false, 0, 210, 15360, 0, volume⟩ = l
  by_cases h : c.GetCryIdBySpecies species = CRY_NONE
  · simp [cryCalls, emit, h]
  · simp [cryCalls, emit, h]

/-- C21 (as amended): for every species, pan and mode other than
`CRY_MODE_DOUBLES`, `PlayCry_ByMode(species, pan, mode)` is the body of
`PlayCry_Normal(species, pan)` with `mode` handed to `PlayCryInternal` in
place of `CRY_MODE_NORMAL`.  Its whole effect is: the BGM is ducked to volume
`85`; the eight cry settings are pushed, with the given pan, priority
`CRY_PRIORITY_NORMAL` and volume `CRY_VOLUME`, except that the volume is `90`
in the modes Encounter, HighPitch, EchoStart and EchoEnd; for a species with a
cry the tone is selected and its player stored; the ducking counter is `2`;
and the ducking task is registered (added when it was not).
`PlayCry_Normal` has this effect with volume `CRY_VOLUME` and the parameters
of mode Normal, and `PlayCry_ByMode(species, pan, CRY_MODE_NORMAL)` equals
`PlayCry_Normal(species, pan)`, engine calls included. -/
theorem C21_playCry_byMode_as_playCry_normal (c : Consts) (e : Env) (species : Nat)
    (pan : Int) (mode : Nat) (s : State) (hm : mode ≠ CRY_MODE_DOUBLES) :
    (∃ length release pitch chorus,
      PlayCry_ByMode c e species pan mode s =
        { s with
          gPokemonCryBGMDuckingCounter := 2
          gMPlay_PokemonCry :=
            if c.GetCryIdBySpecies species = CRY_NONE then s.gMPlay_PokemonCry
            else e.SetPokemonCryTone
              (if mode = CRY_MODE_ECHO_START ∨ mode = CRY_MODE_GROWL_1 then
                ToneRef.gCryTable_Reverse (c.GetCryIdBySpecies species - 1)
              else ToneRef.gCryTable (c.GetCryIdBySpecies species - 1))
          tasks :=
            if FuncIsActiveTask .Task_DuckBGMForPokemonCry s = true then s.tasks
            else s.tasks ++ [⟨.Task_DuckBGMForPokemonCry, 80⟩]
          calls := s.calls ++
            .m4aMPlayVolumeControl .gMPlayInfo_BGM c.TRACKS_ALL 85 ::
              cryCalls (c.GetCryIdBySpecies species) pan
                (if mode = CRY_MODE_ENCOUNTER ∨ mode = CRY_MODE_HIGH_PITCH ∨
                    mode = CRY_MODE_ECHO_START ∨ mode = CRY_MODE_ECHO_END then 90
                  else c.CRY_VOLUME)
                c.CRY_PRIORITY_NORMAL length release pitch chorus
                (decide (mode = CRY_MODE_ECHO_START ∨ mode = CRY_MODE_GROWL_1)) }) ∧
      PlayCry_Normal c e species pan s =
        { s with
          gPokemonCryBGMDuckingCounter := 2
          gMPlay_PokemonCry :=
            if c.GetCryIdBySpecies species = CRY_NONE then s.gMPlay_PokemonCry
            else e.SetPokemonCryTone (ToneRef.gCryTable (c.GetCryIdBySpecies species - 1))
          tasks :=
            if FuncIsActiveTask .Task_DuckBGMForPokemonCry s = true then s.tasks
            else s.tasks ++ [⟨.Task_DuckBGMForPokemonCry, 80⟩]
          calls := s.calls ++
            .m4aMPlayVolumeControl .gMPlayInfo_BGM c.TRACKS_ALL 85 ::
              cryCalls (c.GetCryIdBySpecies species) pan c.CRY_VOLUME
                c.CRY_PRIORITY_NORMAL 210 0 15360 0 false } ∧
      PlayCry_ByMode c e species pan mode s =
        RestoreBGMVolumeAfterPokemonCry
          { PlayCryInternal c e species pan c.CRY_VOLUME c.CRY_PRIORITY_NORMAL mode
              (emit (.m4aMPlayVolumeControl .gMPlayInfo_BGM c.TRACKS_ALL 85) s) with
            gPokemonCryBGMDuckingCounter := 2 } ∧
      PlayCry_ByMode c e species pan CRY_MODE_NORMAL s = PlayCry_Normal c e species pan s ∧
      (PlayCry_ByMode c e species pan mode s).gPokemonCryBGMDuckingCounter = 2 ∧
      FuncIsActiveTask .Task_DuckBGMForPokemonCry (PlayCry_ByMode c e species pan mode s)
        = true := by
  have hby : ∀ m, m ≠ CRY_MODE_DOUBLES → PlayCry_ByMode c e species pan m s =
      RestoreBGMVolumeAfterPokemonCry
        { PlayCryInternal c e species pan c.CRY_VOLUME c.CRY_PRIORITY_NORMAL m
            (emit (.m4aMPlayVolumeControl .gMPlayInfo_BGM c.TRACKS_ALL 85) s) with
          gPokemonCryBGMDuckingCounter := 2 } := by
    intro m hne
    unfold PlayCry_ByMode
    rw [if_neg hne]
  have hnormal : PlayCry_ByMode c e species pan CRY_MODE_NORMAL s =
      PlayCry_Normal c e species pan s := by
    unfold PlayCry_ByMode PlayCry_Normal
    rw [if_neg (by decide)]
  have hfull : ∀ m, m ≠ CRY_MODE_DOUBLES →
      PlayCry_ByMode c e species pan m s =
        { s with
          gPokemonCryBGMDuckingCounter := 2
          gMPlay_PokemonCry :=
            if c.GetCryIdBySpecies species = CRY_NONE then s.gMPlay_PokemonCry
            else e.SetPokemonCryTone
              (if m = CRY_MODE_ECHO_START ∨ m = CRY_MODE_GROWL_1 then
                ToneRef.gCryTable_Reverse (c.GetCryIdBySpecies species - 1)
              else ToneRef.gCryTable (c.GetCryIdBySpecies species - 1))
          tasks :=
            if FuncIsActiveTask .Task_DuckBGMForPokemonCry s = true then s.tasks
            else s.tasks ++ [⟨.Task_DuckBGMForPokemonCry, 80⟩]
          calls := s.calls ++
            .m4aMPlayVolumeControl .gMPlayInfo_BGM c.TRACKS_ALL 85 ::
              cryCalls (c.GetCryIdBySpecies species) pan
                (if m = CRY_MODE_ENCOUNTER ∨ m = CRY_MODE_HIGH_PITCH ∨
                    m = CRY_MODE_ECHO_START ∨ m = CRY_MODE_ECHO_END then 90
                  else c.CRY_VOLUME)
                c.CRY_PRIORITY_NORMAL
                (PlayCryInternal.switch m ⟨false, 0, 210, 15360, 0, c.CRY_VOLUME⟩).length
                (PlayCryInternal.switch m ⟨false, 0, 210, 15360, 0, c.CRY_VOLUME⟩).release
                (PlayCryInternal.switch m ⟨false, 0, 210, 15360, 0, c.CRY_VOLUME⟩).pitch
                (PlayCryInternal.switch m ⟨false, 0, 210, 15360, 0, c.CRY_VOLUME⟩).chorus
                (decide (m = CRY_MODE_ECHO_START ∨ m = CRY_MODE_GROWL_1)) } := by
    intro m hne
    have hvol := PlayCryInternal_switch_volume m ⟨false, 0, 210, 15360, 0, c.CRY_VOLUME⟩
    have hrev := PlayCryInternal_switch_reverse m ⟨false, 0, 210, 15360, 0, c.CRY_VOLUME⟩ rfl
    rw [hby m hne, RestoreBGMVolumeAfterPokemonCry_eq, PlayCryInternal_eq, hvol, hrev]
    simp [FuncIsActiveTask, emit]
  refine ⟨⟨_, _, _, _, hfull mode hm⟩, ?_, hby mode hm, hnormal, ?_, ?_⟩
  · rw [← hnormal, hfull CRY_MODE_NORMAL (by decide)]
    rfl
  · rw [hfull mode hm]
  · rw [hby mode hm]
    exact RestoreBGMVolumeAfterPokemonCry_active _

/-- Witness for C21: species `1` of the sample constants on the start-up state,
in mode Encounter (volume `90`) and in mode Growl1 (volume `CRY_VOLUME`). -/
theorem C21_playCry_byMode_as_playCry_normal_witness :
    CRY_MODE_ENCOUNTER ≠ CRY_MODE_DOUBLES ∧ CRY_MODE_GROWL_1 ≠ CRY_MODE_DOUBLES ∧
    PlayCry_ByMode sampleConsts sampleEnv 1 0 CRY_MODE_NORMAL initState =
      PlayCry_Normal sampleConsts sampleEnv 1 0 initState ∧
    (PlayCry_ByMode sampleConsts sampleEnv 1 0 CRY_MODE_ENCOUNTER initState).gPokemonCryBGMDuckingCounter
      = 2 ∧
    FuncIsActiveTask .Task_DuckBGMForPokemonCry
      (PlayCry_ByMode sampleConsts sampleEnv 1 0 CRY_MODE_GROWL_1 initState) = true :=
  ⟨by decide, by decide,
    (C21_playCry_byMode_as_playCry_normal sampleConsts sampleEnv 1 0 CRY_MODE_GROWL_1
      initState (by decide)).2.2.2.1,
    (C21_playCry_byMode_as_playCry_normal sampleConsts sampleEnv 1 0 CRY_MODE_ENCOUNTER
      initState (by decide)).2.2.2.2.1,
    (C21_playCry_byMode_as_playCry_normal sampleConsts sampleEnv 1 0 CRY_MODE_GROWL_1
      initState (by decide)).2.2.2.2.2⟩

/-- C21 fails as stated: with `CRY_VOLUME = 120` in the sample constants,
`PlayCry_ByMode(1, 0, CRY_MODE_ENCOUNTER)` on the start-up state pushes the cry
volume `90`, not `CRY_VOLUME`. -/
theorem C21_counterexample :
    CRY_MODE_ENCOUNTER ≠ CRY_MODE_DOUBLES ∧ sampleConsts.CRY_VOLUME = 120 ∧
    (PlayCry_ByMode sampleConsts sampleEnv 1 0 CRY_MODE_ENCOUNTER initState).calls =
      [.m4aMPlayVolumeControl .gMPlayInfo_BGM 65535 85, .SetPokemonCryVolume 90,
        .SetPokemonCryPanpot 0, .SetPokemonCryPitch 15600, .SetPokemonCryLength 210,
        .SetPokemonCryProgress 0, .SetPokemonCryRelease 225, .SetPokemonCryChorus 20,
        .SetPokemonCryPriority 10, .SetPokemonCryTone (.gCryTable 0)] := by
  decide

/-- C22 (as amended): the decrement of a counter wraps around at zero (`0`
becomes `0xFFFF` for the 16-bit fanfare counter and `0xFF` for the 8-bit
ducking counter), but `WaitFanfare`, `Task_Fanfare` outside headless test mode
and `Task_DuckBGMForPokemonCry` decrement their counter only when it is
non-zero: after one call the counter is either unchanged at `0` or exactly one
less than before.  In headless test mode `Task_Fanfare` sets the fanfare
counter to `0` whatever it was.  In every case the counter is not larger than
before, so it never wraps below zero and stays within its width. -/
theorem C22_counters_never_wrap (c : Consts) (e : Env) (stop : Bool) (taskId : Nat)
    (s : State) :
    (decU16 0 = 0xFFFF ∧ decU8 0 = 0xFF) ∧
    ((s.sFanfareCounter = 0 ∧ (WaitFanfare c stop s).2.sFanfareCounter = 0) ∨
        (s.sFanfareCounter ≠ 0 ∧
          (WaitFanfare c stop s).2.sFanfareCounter + 1 = s.sFanfareCounter)) ∧
      (e.gTestRunnerHeadless = false →
        (s.sFanfareCounter = 0 ∧ (Task_Fanfare e taskId s).sFanfareCounter = 0) ∨
          (s.sFanfareCounter ≠ 0 ∧
            (Task_Fanfare e taskId s).sFanfareCounter + 1 = s.sFanfareCounter)) ∧
      (e.gTestRunnerHeadless = true → (Task_Fanfare e taskId s).sFanfareCounter = 0) ∧
      ((s.gPokemonCryBGMDuckingCounter = 0 ∧
          (Task_DuckBGMForPokemonCry c e taskId s).gPokemonCryBGMDuckingCounter = 0) ∨
        (s.gPokemonCryBGMDuckingCounter ≠ 0 ∧
          (Task_DuckBGMForPokemonCry c e taskId s).gPokemonCryBGMDuckingCounter + 1 =
            s.gPokemonCryBGMDuckingCounter)) ∧
      (WaitFanfare c stop s).2.sFanfareCounter ≤ s.sFanfareCounter ∧
      (Task_Fanfare e taskId s).sFanfareCounter ≤ s.sFanfareCounter ∧
      (Task_DuckBGMForPokemonCry c e taskId s).gPokemonCryBGMDuckingCounter ≤
        s.gPokemonCryBGMDuckingCounter ∧
      (s.sFanfareCounter < 2 ^ 16 →
        (WaitFanfare c stop s).2.sFanfareCounter < 2 ^ 16 ∧
          (Task_Fanfare e taskId s).sFanfareCounter < 2 ^ 16) ∧
      (s.gPokemonCryBGMDuckingCounter < 2 ^ 8 →
        (Task_DuckBGMForPokemonCry c e taskId s).gPokemonCryBGMDuckingCounter < 2 ^ 8) := by
  have hw : (WaitFanfare c stop s).2.sFanfareCounter = s.sFanfareCounter - 1 := by
    unfold WaitFanfare
    by_cases h0 : s.sFanfareCounter = 0
    · cases stop <;> simp [h0, emit]
    · simp [h0, decU16]
  have hth : e.gTestRunnerHeadless = true → (Task_Fanfare e taskId s).sFanfareCounter = 0 := by
    intro hh
    simp [Task_Fanfare, decU16, hh]
  have htn : e.gTestRunnerHeadless = false →
      (Task_Fanfare e taskId s).sFanfareCounter = s.sFanfareCounter - 1 := by
    intro hh
    unfold Task_Fanfare
    by_cases h0 : s.sFanfareCounter = 0
    · simp [hh, h0, emit, DestroyTask]
    · simp [hh, h0, decU16]
  have hd : (Task_DuckBGMForPokemonCry c e taskId s).gPokemonCryBGMDuckingCounter =
      s.gPokemonCryBGMDuckingCounter - 1 := by
    unfold Task_DuckBGMForPokemonCry
    by_cases h0 : s.gPokemonCryBGMDuckingCounter = 0
    · by_cases hp : e.IsPokemonCryPlaying s.gMPlay_PokemonCry = true
      · simp [h0, hp]
      · simp [h0, hp, emit, DestroyTask]
    · simp [h0, decU8]
  have htle : (Task_Fanfare e taskId s).sFanfareCounter ≤ s.sFanfareCounter := by
    cases hh : e.gTestRunnerHeadless
    · rw [htn hh]; omega
    · rw [hth hh]; omega
  refine ⟨⟨rfl, rfl⟩, ?_, ?_, hth, ?_, ?_, htle, ?_, ?_, ?_⟩
  · rw [hw]; omega
  · intro hh; rw [htn hh]; omega
  · rw [hd]; omega
  · rw [hw]; omega
  · rw [hd]; omega
  · intro hlt
    exact ⟨by rw [hw]; omega, by omega⟩
  · intro hlt
    rw [hd]; omega

/-- C22 fails as stated: in headless test mode one tick of `Task_Fanfare` takes
the fanfare counter from `5` to `0`, which is neither "unchanged at 0" nor
"exactly one less than before". -/
theorem C22_counterexample :
    sampleEnvHeadless.gTestRunnerHeadless = true ∧
    ({ initState with sFanfareCounter := 5, tasks := [⟨.Task_Fanfare, 80⟩] } :
      State).sFanfareCounter = 5 ∧
    (Task_Fanfare sampleEnvHeadless 0
      { initState with sFanfareCounter := 5, tasks := [⟨.Task_Fanfare, 80⟩] }).sFanfareCounter
      = 0 := by
  decide

/-- C23 fails on the code: `PlayBGM` always starts the regional id of the
requested song, because it computes the id to start before the two
substitutions and does not read `songNum` after them.  With music disabled
`PlayBGM(300)` starts `300`, and `PlayBGM(MUS_NONE)` starts `65535`, where
`FadeInNewBGM` starts song `0` in both cases. -/
theorem C23_playBGM_starts_the_requested_song :
    (∀ (c : Consts) (e : Env) (songNum : Nat) (s : State),
      (PlayBGM c e songNum s).calls =
        s.calls ++ [.m4aSongNumStart (RegionalMusicHandler c e songNum)]) ∧
    (PlayBGM sampleConsts sampleEnv 300 { initState with gDisableMusic := true }).calls =
      [.m4aSongNumStart 300] ∧
    sampleConsts.song .MUS_NONE = 65535 ∧
    (PlayBGM sampleConsts sampleEnv 65535 initState).calls = [.m4aSongNumStart 65535] ∧
    (FadeInNewBGM sampleConsts 300 6 { initState with gDisableMusic := true }).calls =
      [.m4aSongNumStart 0, .m4aMPlayImmInit .gMPlayInfo_BGM,
        .m4aMPlayVolumeControl .gMPlayInfo_BGM 65535 0, .m4aSongNumStop 0,
        .m4aMPlayFadeIn .gMPlayInfo_BGM 6] ∧
    (FadeInNewBGM sampleConsts 65535 6 initState).calls =
      [.m4aSongNumStart 0, .m4aMPlayImmInit .gMPlayInfo_BGM,
        .m4aMPlayVolumeControl .gMPlayInfo_BGM 65535 0, .m4aSongNumStop 0,
        .m4aMPlayFadeIn .gMPlayInfo_BGM 6] := by
  refine ⟨?_, by decide, by decide, by decide, by decide, by decide⟩
  intro c e songNum s
  simp [PlayBGM, emit]

end Sound
